import Mathlib

/-!
Verification of the bus-seat booking core (backend/app): the booking and
ticket state machines, the seat ledger, and the in-memory notification hub.

The definitions below are a shallow embedding of the Python source:

* `app/routers/bookings.py` — `accept_booking`, `reject_booking`,
  `cancel_booking`, `confirm_ticket`, `cancel_ticket`;
* `app/routers/location.py` — `update_bus_location`;
* `app/routers/websocket.py` — `ConnectionManager` and the
  `send_*_notification` helpers;
* `app/schemas/ticket.py` — the pydantic validation of
  `TicketConfirmRequest`;
* `app/dependencies.py` — the role-gating dependencies
  (`get_current_passenger`, `get_current_supervisor`, `get_current_user`).

The SQLAlchemy session is modelled as an explicit record of rows (`DB`).
`query(...).filter(...).first()` becomes `List.find?`; mutating the ORM
object returned by `first()` becomes `updateFirst` (update of the first
row matching the same predicate).  A handler either raises before any
mutation (modelled as `Except.error` returning the state unchanged) or
commits (`Except.ok` with the new state).  An unhandled Python exception
after mutations but before `db.commit()` rolls the transaction back, so
it is modelled as `.error .internalError` with the state unchanged.
Timestamps are abstract `Nat` instants; decimal fares are integers (the
claims only involve ring arithmetic on them); response JSON payloads are
not modelled, but the list of notification-hub deliveries performed by a
handler is part of its result.
-/

namespace BusHub

/-- `app/schemas/user.py` `UserRole` (string enum). -/
inductive Role where
  | passenger
  | supervisor
  | owner
deriving DecidableEq, Repr

/-- `app/models/user.py` `User` — only the fields the booking core reads. -/
structure User where
  id : Nat
  role : Role
deriving DecidableEq, Repr

/-- `app/models/booking.py` `BookingStatus`. -/
inductive BookingStatus where
  | pending
  | accepted
  | rejected
  | cancelled
deriving DecidableEq, Repr

/-- The `.value` string of a `BookingStatus` (used in error details). -/
def BookingStatus.value : BookingStatus → String
  | .pending => "pending"
  | .accepted => "accepted"
  | .rejected => "rejected"
  | .cancelled => "cancelled"

/-- `app/models/ticket.py` `TicketStatus`. -/
inductive TicketStatus where
  | confirmed
  | completed
  | cancelled
deriving DecidableEq, Repr

/-- The `.value` string of a `TicketStatus` (used in error details). -/
def TicketStatus.value : TicketStatus → String
  | .confirmed => "confirmed"
  | .completed => "completed"
  | .cancelled => "cancelled"

/-- `app/models/bus.py` `Bus` — the fields the booking/location core reads
or writes.  `fare` (DECIMAL) is modelled as an integer amount, coordinates
as integers (their values never influence control flow). -/
structure Bus where
  id : Nat
  fare : Int
  seat_capacity : Int
  available_seats : Int
  owner_id : Nat
  supervisor_id : Option Nat
  current_lat : Option Int
  current_lng : Option Int
  last_location_update : Option Nat
  is_active : Bool
deriving DecidableEq, Repr

/-- `app/models/booking.py` `Booking`. -/
structure Booking where
  id : Nat
  passenger_id : Nat
  bus_id : Nat
  status : BookingStatus
  accepted_time : Option Nat
  rejected_time : Option Nat
  cancelled_time : Option Nat
  rejection_reason : Option String
  cancellation_reason : Option String
deriving DecidableEq, Repr

/-- `app/models/ticket.py` `Ticket`. -/
structure Ticket where
  id : Nat
  booking_id : Nat
  boarding_point_id : Nat
  seats_booked : Int
  fare_per_seat : Int
  total_fare : Int
  status : TicketStatus
  cancelled_at : Option Nat
deriving DecidableEq, Repr

/-- `app/models/boarding_point.py` `BoardingPoint` — only the keys. -/
structure BoardingPoint where
  id : Nat
  bus_id : Nat
deriving DecidableEq, Repr

/-- The relational store seen by one request handler: the rows of the
four tables the booking core touches, plus the primary-key sequence for
`tickets` (`db.refresh(new_ticket)` exposes the generated id). -/
structure DB where
  buses : List Bus
  bookings : List Booking
  tickets : List Ticket
  boarding_points : List BoardingPoint
  next_ticket_id : Nat
deriving DecidableEq, Repr

/-- The structured errors a handler can surface: `HTTPException`s with
404 / 403 / 400 status, the FastAPI 422 raised by pydantic validation
before the handler runs, and an unhandled exception (HTTP 500, the
transaction is rolled back). -/
inductive ApiError where
  | notFound (detail : String)
  | forbidden (detail : String)
  | badRequest (detail : String)
  | validationError
  | internalError
deriving DecidableEq, Repr

/-- An event delivered through the notification hub
(`app/routers/websocket.py`): the `"type"` field of the JSON message
together with its routing-relevant payload. -/
inductive HubEvent where
  | booking_accepted (booking_id : Nat)
  | booking_rejected (booking_id : Nat)
  | ticket_confirmed (ticket_id : Nat)
  | location_update (bus_id : Nat)
deriving DecidableEq, Repr

/-- A delivery: (websocket channel, event).  Channels are identified by
numbers. -/
abbrev Delivery := Nat × HubEvent

/-- Result of a mutating handler: the committed store and the list of
notification-hub deliveries the handler performed. -/
abbrev HandlerResult := Except ApiError (DB × List Delivery)

instance {ε α : Type} [DecidableEq ε] [DecidableEq α] :
    DecidableEq (Except ε α) := fun a b =>
  match a, b with
  | .error e, .error f =>
    if h : e = f then .isTrue (h ▸ rfl)
    else .isFalse (fun hc => h (by cases hc; rfl))
  | .error _, .ok _ => .isFalse (fun hc => Except.noConfusion hc)
  | .ok _, .error _ => .isFalse (fun hc => Except.noConfusion hc)
  | .ok x, .ok y =>
    if h : x = y then .isTrue (h ▸ rfl)
    else .isFalse (fun hc => h (by cases hc; rfl))

/-- Update the first element satisfying `p` (the Python code mutates the
single ORM object returned by `query(...).filter(...).first()`). -/
def updateFirst (p : α → Bool) (f : α → α) : List α → List α
  | [] => []
  | x :: xs => if p x then f x :: xs else x :: updateFirst p f xs

/-- `app/schemas/ticket.py` `TicketConfirmRequest`. -/
structure TicketConfirmRequest where
  booking_id : Nat
  boarding_point_id : Nat
  seats_booked : Int
deriving DecidableEq, Repr

/-- The pydantic field constraints of `TicketConfirmRequest`:
`booking_id : gt=0`, `boarding_point_id : gt=0`,
`seats_booked : gt=0, le=10`. -/
def TicketConfirmRequest.valid (r : TicketConfirmRequest) : Bool :=
  0 < r.booking_id && 0 < r.boarding_point_id &&
    0 < r.seats_booked && r.seats_booked ≤ 10

/-- `accept_booking` (`bookings.py` lines 139–214).  The passenger row
and the boarding-point rows fetched by the handler only feed the JSON
response, which is not modelled.  No notification is sent. -/
def accept_booking (db : DB) (current_user : User) (booking_id : Nat)
    (now : Nat) : HandlerResult :=
  if current_user.role ≠ Role.supervisor then
    .error (.forbidden "Only supervisors can access this endpoint")
  else
    match db.bookings.find? (fun b => b.id == booking_id) with
    | none => .error (.notFound "Booking not found")
    | some booking =>
      match db.buses.find? (fun b => b.id == booking.bus_id) with
      | none =>
        .error (.forbidden
          "You don't have permission to manage bookings for this bus")
      | some bus =>
        if bus.supervisor_id ≠ some current_user.id then
          .error (.forbidden
            "You don't have permission to manage bookings for this bus")
        else if booking.status ≠ BookingStatus.pending then
          .error (.badRequest ("Booking is already " ++ booking.status.value))
        else if bus.available_seats ≤ 0 then
          .error (.badRequest "No seats available on this bus")
        else
          .ok ({ db with
                 bookings := updateFirst (fun b => b.id == booking_id)
                   (fun b => { b with status := BookingStatus.accepted,
                                      accepted_time := some now })
                   db.bookings }, [])

/-- `reject_booking` (`bookings.py` lines 217–261).  No notification is
sent. -/
def reject_booking (db : DB) (current_user : User) (booking_id : Nat)
    (reason : Option String) (now : Nat) : HandlerResult :=
  if current_user.role ≠ Role.supervisor then
    .error (.forbidden "Only supervisors can access this endpoint")
  else
    match db.bookings.find? (fun b => b.id == booking_id) with
    | none => .error (.notFound "Booking not found")
    | some booking =>
      match db.buses.find? (fun b => b.id == booking.bus_id) with
      | none =>
        .error (.forbidden
          "You don't have permission to manage bookings for this bus")
      | some bus =>
        if bus.supervisor_id ≠ some current_user.id then
          .error (.forbidden
            "You don't have permission to manage bookings for this bus")
        else if booking.status ≠ BookingStatus.pending then
          .error (.badRequest ("Booking is already " ++ booking.status.value))
        else
          .ok ({ db with
                 bookings := updateFirst (fun b => b.id == booking_id)
                   (fun b => { b with status := BookingStatus.rejected,
                                      rejected_time := some now,
                                      rejection_reason := reason })
                   db.bookings }, [])

/-- `cancel_booking` (`bookings.py` lines 264–329).  If a confirmed
ticket exists but the bus row is absent, `bus.available_seats` raises
`AttributeError` before `db.commit()`: the transaction is rolled back
(`.error .internalError`, state unchanged).  No notification is sent. -/
def cancel_booking (db : DB) (current_user : User) (booking_id : Nat)
    (reason : Option String) (now : Nat) : HandlerResult :=
  match db.bookings.find? (fun b => b.id == booking_id) with
  | none => .error (.notFound "Booking not found")
  | some booking =>
    let bus? := db.buses.find? (fun b => b.id == booking.bus_id)
    let is_passenger := current_user.role == Role.passenger &&
      booking.passenger_id == current_user.id
    let is_supervisor := current_user.role == Role.supervisor &&
      (match bus? with
       | some bus => bus.supervisor_id == some current_user.id
       | none => false)
    if !(is_passenger || is_supervisor) then
      .error (.forbidden "You don't have permission to cancel this booking")
    else if booking.status == BookingStatus.rejected ||
        booking.status == BookingStatus.cancelled then
      .error (.badRequest ("Booking is already " ++ booking.status.value))
    else
      let bookings' := updateFirst (fun b => b.id == booking_id)
        (fun b => { b with status := BookingStatus.cancelled,
                           cancelled_time := some now,
                           cancellation_reason := reason })
        db.bookings
      match db.tickets.find? (fun t => t.booking_id == booking.id) with
      | some ticket =>
        if ticket.status == TicketStatus.confirmed then
          match bus? with
          | none => .error .internalError
          | some _ =>
            .ok ({ db with
                   tickets := updateFirst (fun t => t.booking_id == booking.id)
                     (fun t => { t with status := TicketStatus.cancelled,
                                        cancelled_at := some now })
                     db.tickets,
                   buses := updateFirst (fun b => b.id == booking.bus_id)
                     (fun b => { b with available_seats :=
                                   b.available_seats + ticket.seats_booked })
                     db.buses,
                   bookings := bookings' }, [])
        else
          .ok ({ db with bookings := bookings' }, [])
      | none =>
        .ok ({ db with bookings := bookings' }, [])

/-- `confirm_ticket` (`bookings.py` lines 332–441), after pydantic
validation.  The source fetches the bus before the boarding point but
reads `bus.available_seats` only after the boarding-point 404 check; a
present boarding point with an absent bus row would raise
`AttributeError` (rolled back, `.error .internalError`).  No
notification is sent. -/
def confirm_ticket (db : DB) (current_user : User)
    (ticket_data : TicketConfirmRequest) : HandlerResult :=
  if current_user.role ≠ Role.passenger then
    .error (.forbidden "Only passengers can access this endpoint")
  else
    match db.bookings.find? (fun b => b.id == ticket_data.booking_id) with
    | none => .error (.notFound "Booking not found")
    | some booking =>
      if booking.passenger_id ≠ current_user.id then
        .error (.forbidden
          "You don't have permission to confirm this booking")
      else if booking.status ≠ BookingStatus.accepted then
        .error (.badRequest "Booking must be accepted before confirming ticket")
      else
        match db.tickets.find? (fun t => t.booking_id == booking.id) with
        | some _ => .error (.badRequest "Ticket already confirmed for this booking")
        | none =>
          match db.boarding_points.find? (fun bp =>
              bp.id == ticket_data.boarding_point_id &&
              bp.bus_id == booking.bus_id) with
          | none => .error (.notFound "Boarding point not found for this bus")
          | some _ =>
            match db.buses.find? (fun b => b.id == booking.bus_id) with
            | none => .error .internalError
            | some bus =>
              if bus.available_seats < ticket_data.seats_booked then
                .error (.badRequest ("Only " ++ toString bus.available_seats ++
                  " seats available"))
              else
                let new_ticket : Ticket :=
                  { id := db.next_ticket_id,
                    booking_id := booking.id,
                    boarding_point_id := ticket_data.boarding_point_id,
                    seats_booked := ticket_data.seats_booked,
                    fare_per_seat := bus.fare,
                    total_fare := bus.fare * ticket_data.seats_booked,
                    status := TicketStatus.confirmed,
                    cancelled_at := none }
                .ok ({ db with
                       buses := updateFirst (fun b => b.id == booking.bus_id)
                         (fun b => { b with available_seats :=
                                       b.available_seats -
                                         ticket_data.seats_booked })
                         db.buses,
                       tickets := db.tickets ++ [new_ticket],
                       next_ticket_id := db.next_ticket_id + 1 }, [])

/-- The `/booking/ticket/confirm` endpoint: pydantic validates
`TicketConfirmRequest` (422 on failure) before `confirm_ticket` runs. -/
def confirm_ticket_endpoint (db : DB) (current_user : User)
    (ticket_data : TicketConfirmRequest) : HandlerResult :=
  if ticket_data.valid then confirm_ticket db current_user ticket_data
  else .error .validationError

/-- `cancel_ticket` (`bookings.py` lines 523–576).  The seat restoration
is guarded by `if bus:` — if the bus row is absent it is silently
skipped and the handler still commits.  No notification is sent. -/
def cancel_ticket (db : DB) (current_user : User) (ticket_id : Nat)
    (reason : Option String) (now : Nat) : HandlerResult :=
  if current_user.role ≠ Role.passenger then
    .error (.forbidden "Only passengers can access this endpoint")
  else
    match db.tickets.find? (fun t => t.id == ticket_id) with
    | none => .error (.notFound "Ticket not found")
    | some ticket =>
      match db.bookings.find? (fun b => b.id == ticket.booking_id) with
      | none =>
        .error (.forbidden "You don't have permission to cancel this ticket")
      | some booking =>
        if booking.passenger_id ≠ current_user.id then
          .error (.forbidden "You don't have permission to cancel this ticket")
        else if ticket.status ≠ TicketStatus.confirmed then
          .error (.badRequest ("Ticket is already " ++ ticket.status.value))
        else
          let buses' :=
            match db.buses.find? (fun b => b.id == booking.bus_id) with
            | some _ =>
              updateFirst (fun b => b.id == booking.bus_id)
                (fun b => { b with available_seats :=
                              b.available_seats + ticket.seats_booked })
                db.buses
            | none => db.buses
          .ok ({ db with
                 tickets := updateFirst (fun t => t.id == ticket_id)
                   (fun t => { t with status := TicketStatus.cancelled,
                                      cancelled_at := some now })
                   db.tickets,
                 buses := buses',
                 bookings := updateFirst (fun b => b.id == ticket.booking_id)
                   (fun b => { b with status := BookingStatus.cancelled,
                                      cancelled_time := some now,
                                      cancellation_reason := reason })
                   db.bookings }, [])

/-- `update_bus_location` (`location.py` lines 18–63): after committing
the new coordinates it broadcasts through the hub (see
`send_bus_location_update` below). -/
def update_bus_location_state (db : DB) (current_user : User) (bus_id : Nat)
    (lat lng : Int) (now : Nat) : Except ApiError DB :=
  if current_user.role ≠ Role.supervisor then
    .error (.forbidden "Only supervisors can access this endpoint")
  else
    match db.buses.find? (fun b => b.id == bus_id) with
    | none => .error (.notFound "Bus not found")
    | some bus =>
      if bus.supervisor_id ≠ some current_user.id then
        .error (.forbidden
          "You don't have permission to update location for this bus")
      else
        .ok { db with
              buses := updateFirst (fun b => b.id == bus_id)
                (fun b => { b with current_lat := some lat,
                                   current_lng := some lng,
                                   last_location_update := some now })
                db.buses }

/-- `ConnectionManager` (`websocket.py` lines 18–84): two routing tables,
user-id → open channels and bus-id → open channels.  Python dicts have
unique keys; channels are identified by numbers. -/
structure ConnectionManager where
  active_connections : List (Nat × List Nat)
  bus_connections : List (Nat × List Nat)
deriving DecidableEq, Repr

/-- `key in dict` followed by `dict[key]`. -/
def lookupKey (tbl : List (Nat × List Nat)) (k : Nat) : Option (List Nat) :=
  (tbl.find? (fun e => e.fst == k)).map (fun e => e.snd)

/-- Python `list.remove(x)`: removes the first occurrence of `x`;
`none` models the `ValueError` raised when `x` is not in the list. -/
def listRemove (x : Nat) : List Nat → Option (List Nat)
  | [] => none
  | y :: ys => if y == x then some ys
               else (listRemove x ys).map (fun l => y :: l)

/-- Replace the channel list bound to key `k`, or delete the key when the
new list is empty (`if not self.active_connections[user_id]: del ...`). -/
def storeKey (tbl : List (Nat × List Nat)) (k : Nat) (conns : List Nat) :
    List (Nat × List Nat) :=
  if conns.isEmpty then tbl.filter (fun e => !(e.fst == k))
  else updateFirst (fun e => e.fst == k) (fun e => (e.fst, conns)) tbl

/-- `ConnectionManager.connect_user` (`websocket.py` lines 27–32). -/
def connect_user (m : ConnectionManager) (ws : Nat) (user_id : Nat) :
    ConnectionManager :=
  match lookupKey m.active_connections user_id with
  | none => { m with active_connections :=
                m.active_connections ++ [(user_id, [ws])] }
  | some conns => { m with active_connections :=
                      storeKey m.active_connections user_id (conns ++ [ws]) }

/-- `ConnectionManager.disconnect_user` (`websocket.py` lines 34–39).
`none` models the `ValueError` escaping from `list.remove` when the key
is registered but `ws` is not among its channels; when the key is not
registered at all the method does nothing. -/
def disconnect_user (m : ConnectionManager) (ws : Nat) (user_id : Nat) :
    Option ConnectionManager :=
  match lookupKey m.active_connections user_id with
  | none => some m
  | some conns =>
    match listRemove ws conns with
    | none => none
    | some conns' =>
      some { m with active_connections :=
               storeKey m.active_connections user_id conns' }

/-- `ConnectionManager.connect_bus_location` (`websocket.py` lines 41–46). -/
def connect_bus_location (m : ConnectionManager) (ws : Nat) (bus_id : Nat) :
    ConnectionManager :=
  match lookupKey m.bus_connections bus_id with
  | none => { m with bus_connections :=
                m.bus_connections ++ [(bus_id, [ws])] }
  | some conns => { m with bus_connections :=
                      storeKey m.bus_connections bus_id (conns ++ [ws]) }

/-- `ConnectionManager.disconnect_bus_location` (`websocket.py` lines
48–53); same shape as `disconnect_user` on the other table. -/
def disconnect_bus_location (m : ConnectionManager) (ws : Nat)
    (bus_id : Nat) : Option ConnectionManager :=
  match lookupKey m.bus_connections bus_id with
  | none => some m
  | some conns =>
    match listRemove ws conns with
    | none => none
    | some conns' =>
      some { m with bus_connections :=
               storeKey m.bus_connections bus_id conns' }

/-- `ConnectionManager.send_booking_update` (`websocket.py` lines 55–63)
with every send succeeding: the message is delivered to every channel
registered under `user_id`. -/
def send_booking_update (m : ConnectionManager) (user_id : Nat)
    (ev : HubEvent) : List Delivery :=
  match lookupKey m.active_connections user_id with
  | some conns => conns.map (fun ws => (ws, ev))
  | none => []

/-- `send_bus_location_update` (`websocket.py` lines 65–73 and 303–314):
delivers a `location_update` message to every channel registered under
`bus_id`. -/
def send_bus_location_update (m : ConnectionManager) (bus_id : Nat) :
    List Delivery :=
  match lookupKey m.bus_connections bus_id with
  | some conns => conns.map (fun ws => (ws, HubEvent.location_update bus_id))
  | none => []

/-- The full `/location/bus/{bus_id}/update` endpoint: commit the state
change, then broadcast (`location.py` line 53). -/
def update_bus_location (m : ConnectionManager) (db : DB)
    (current_user : User) (bus_id : Nat) (lat lng : Int) (now : Nat) :
    HandlerResult :=
  match update_bus_location_state db current_user bus_id lat lng now with
  | .error e => .error e
  | .ok db' => .ok (db', send_bus_location_update m bus_id)

/-- An inbound command of the booking/ticket core, carrying the acting
principal and the request payload. -/
inductive Op where
  | acceptBooking (u : User) (booking_id : Nat) (now : Nat)
  | rejectBooking (u : User) (booking_id : Nat) (reason : Option String)
      (now : Nat)
  | cancelBooking (u : User) (booking_id : Nat) (reason : Option String)
      (now : Nat)
  | confirmTicket (u : User) (r : TicketConfirmRequest)
  | cancelTicket (u : User) (ticket_id : Nat) (reason : Option String)
      (now : Nat)
deriving DecidableEq, Repr

/-- Run one command against the store. -/
def runOp (op : Op) (db : DB) : HandlerResult :=
  match op with
  | .acceptBooking u bid now => accept_booking db u bid now
  | .rejectBooking u bid reason now => reject_booking db u bid reason now
  | .cancelBooking u bid reason now => cancel_booking db u bid reason now
  | .confirmTicket u r => confirm_ticket_endpoint db u r
  | .cancelTicket u tid reason now => cancel_ticket db u tid reason now

/-- The store after one command: a failing command leaves it unchanged
(every raise happens before `db.commit()`, or rolls back). -/
def applyOp (op : Op) (db : DB) : DB :=
  match runOp op db with
  | .ok (db', _) => db'
  | .error _ => db

/-- The store after a sequence of commands. -/
def applyOps (ops : List Op) (db : DB) : DB :=
  match ops with
  | [] => db
  | op :: rest => applyOps rest (applyOp op db)

/-- Observer: the `status` of the booking row with primary key `bid`. -/
def bookingStatusOf (db : DB) (bid : Nat) : Option BookingStatus :=
  (db.bookings.find? (fun b => b.id == bid)).map (fun b => b.status)

/-- Observer: the `status` of the ticket row with primary key `tid`. -/
def ticketStatusOf (db : DB) (tid : Nat) : Option TicketStatus :=
  (db.tickets.find? (fun t => t.id == tid)).map (fun t => t.status)

/-- Observer: the `available_seats` of the bus row with primary key
`bus_id`. -/
def busAvailOf (db : DB) (bus_id : Nat) : Option Int :=
  (db.buses.find? (fun b => b.id == bus_id)).map (fun b => b.available_seats)

/-- Observer: the `seat_capacity` of the bus row with primary key
`bus_id`. -/
def busCapOf (db : DB) (bus_id : Nat) : Option Int :=
  (db.buses.find? (fun b => b.id == bus_id)).map (fun b => b.seat_capacity)

/-- The bus a ticket belongs to: the `bus_id` of the booking row the
ticket references. -/
def bookingBus (bookings : List Booking) (bid : Nat) : Option Nat :=
  (bookings.find? (fun b => b.id == bid)).map (fun b => b.bus_id)

/-- Does ticket `t` count against the seat inventory of bus `bus_id`?
True for a confirmed ticket whose booking row references that bus. -/
def countsFor (bookings : List Booking) (bus_id : Nat) (t : Ticket) : Bool :=
  t.status == TicketStatus.confirmed &&
    bookingBus bookings t.booking_id == some bus_id

/-- Total `seats_booked` of a list of tickets. -/
def sumSeats : List Ticket → Int
  | [] => 0
  | t :: ts => t.seats_booked + sumSeats ts

/-- Seats currently held by outstanding confirmed tickets of bus
`bus_id`. -/
def outstanding (db : DB) (bus_id : Nat) : Int :=
  sumSeats (db.tickets.filter (countsFor db.bookings bus_id))

/-- Relational well-formedness the store guarantees (primary keys are
unique, `tickets.booking_id` is UNIQUE, generated ids are fresh). -/
def DB.WF (db : DB) : Prop :=
  (db.buses.map Bus.id).Nodup ∧
  (db.bookings.map Booking.id).Nodup ∧
  (db.tickets.map Ticket.id).Nodup ∧
  (db.tickets.map Ticket.booking_id).Nodup ∧
  ∀ t ∈ db.tickets, t.id < db.next_ticket_id

/-- The seat-ledger consistency every reachable store satisfies: seat
counters are non-negative, every confirmed ticket holds a non-negative
seat count, and the available seats of a bus plus the seats held by its
outstanding confirmed tickets stay within its capacity. -/
def SeatInv (db : DB) : Prop :=
  (∀ bus ∈ db.buses, 0 ≤ bus.available_seats ∧
    bus.available_seats + outstanding db bus.id ≤ bus.seat_capacity) ∧
  ∀ t ∈ db.tickets, t.status = TicketStatus.confirmed → 0 ≤ t.seats_booked

/-- Ticket/booking lifecycle consistency every reachable store
satisfies: the booking row of a confirmed ticket is in `accepted`
state (tickets are created only against accepted bookings, and every
path that cancels a booking cancels its confirmed ticket in the same
transaction). -/
def TicketsConsistent (db : DB) : Prop :=
  ∀ t ∈ db.tickets, t.status = TicketStatus.confirmed →
    ∀ b, db.bookings.find? (fun x => x.id == t.booking_id) = some b →
      b.status = BookingStatus.accepted

instance (db : DB) : Decidable (DB.WF db) := by
  unfold DB.WF
  infer_instance

instance (db : DB) : Decidable (SeatInv db) := by
  unfold SeatInv
  infer_instance

/-- All reachable-state invariants bundled. -/
def Inv (db : DB) : Prop :=
  DB.WF db ∧ SeatInv db ∧ TicketsConsistent db

/-! ### Generic lemmas about `find?`, `updateFirst` and the observers -/

theorem find?_decomp {p : α → Bool} {l : List α} {a : α}
    (h : l.find? p = some a) :
    ∃ l1 l2, l = l1 ++ a :: l2 ∧ (∀ x ∈ l1, p x = false) ∧ p a = true := by
  induction l with
  | nil => simp [List.find?] at h
  | cons x xs ih =>
    by_cases hx : p x = true
    · refine ⟨[], xs, ?_, by simp, ?_⟩ <;>
        simp_all [List.find?]
    · have hx' : p x = false := by simpa using hx
      rw [List.find?] at h
      rw [hx'] at h
      obtain ⟨l1, l2, rfl, hl1, ha⟩ := ih h
      exact ⟨x :: l1, l2, rfl, by
        intro y hy
        rcases List.mem_cons.mp hy with rfl | hy
        · exact hx'
        · exact hl1 y hy, ha⟩

theorem updateFirst_mid {p : α → Bool} (f : α → α) {l1 : List α} {a : α}
    (l2 : List α) (h1 : ∀ x ∈ l1, p x = false) (ha : p a = true) :
    updateFirst p f (l1 ++ a :: l2) = l1 ++ f a :: l2 := by
  induction l1 with
  | nil => simp [updateFirst, ha]
  | cons x xs ih =>
    have hx : p x = false := h1 x (by simp)
    have ih' := ih (fun y hy => h1 y (by simp [hy]))
    simp [updateFirst, hx, ih']

theorem updateFirst_of_none {p : α → Bool} (f : α → α) {l : List α}
    (h : ∀ x ∈ l, p x = false) : updateFirst p f l = l := by
  induction l with
  | nil => rfl
  | cons x xs ih =>
    have hx : p x = false := h x (by simp)
    have ih' := ih (fun y hy => h y (by simp [hy]))
    simp [updateFirst, hx, ih']

theorem find?_mid_true {p : α → Bool} {l1 : List α} {a : α} (l2 : List α)
    (h1 : ∀ x ∈ l1, p x = false) (ha : p a = true) :
    (l1 ++ a :: l2).find? p = some a := by
  induction l1 with
  | nil => simp [List.find?, ha]
  | cons x xs ih =>
    have hx : p x = false := h1 x (by simp)
    simp only [List.cons_append, List.find?, hx]
    exact ih (fun y hy => h1 y (by simp [hy]))

theorem find?_mid_congr {p : α → Bool} {a a' : α} (l1 l2 : List α)
    (h : p a' = false) (h2 : p a = false) :
    (l1 ++ a' :: l2).find? p = (l1 ++ a :: l2).find? p := by
  induction l1 with
  | nil => simp [List.find?, h, h2]
  | cons x xs ih =>
    by_cases hx : p x = true <;> simp_all [List.find?]

theorem find?_append_left {p : α → Bool} {l1 : List α} {a : α}
    (h : l1.find? p = some a) (l2 : List α) :
    (l1 ++ l2).find? p = some a := by
  induction l1 with
  | nil => simp [List.find?] at h
  | cons x xs ih =>
    by_cases hx : p x = true <;> simp_all [List.find?]

theorem updateFirst_map_key (key : α → β) {p : α → Bool} {f : α → α}
    (hf : ∀ a, key (f a) = key a) (l : List α) :
    (updateFirst p f l).map key = l.map key := by
  induction l with
  | nil => rfl
  | cons x xs ih =>
    by_cases hx : p x = true <;> simp_all [updateFirst, hf]

theorem sumSeats_append (l1 l2 : List Ticket) :
    sumSeats (l1 ++ l2) = sumSeats l1 + sumSeats l2 := by
  induction l1 with
  | nil => simp [sumSeats]
  | cons t ts ih => simp [sumSeats, ih]; ring

theorem nodup_mid_key (key : α → β) {l1 l2 : List α} {a : α}
    (h : ((l1 ++ a :: l2).map key).Nodup) :
    (∀ x ∈ l1, key x ≠ key a) ∧ (∀ x ∈ l2, key x ≠ key a) := by
  rw [List.map_append, List.map_cons] at h
  rw [List.nodup_middle, List.nodup_cons] at h
  constructor
  · intro x hx hk
    exact h.1 (by rw [List.mem_append]; exact Or.inl (hk ▸ List.mem_map_of_mem key hx))
  · intro x hx hk
    exact h.1 (by rw [List.mem_append]; exact Or.inr (hk ▸ List.mem_map_of_mem key hx))

/-! ### Success characterizations of the handlers -/

theorem accept_booking_ok {db : DB} {u : User} {bid now : Nat} {db' : DB}
    {ds : List Delivery} (h : accept_booking db u bid now = .ok (db', ds)) :
    ∃ booking bus,
      db.bookings.find? (fun b => b.id == bid) = some booking ∧
      db.buses.find? (fun b => b.id == booking.bus_id) = some bus ∧
      u.role = Role.supervisor ∧
      bus.supervisor_id = some u.id ∧
      booking.status = BookingStatus.pending ∧
      0 < bus.available_seats ∧
      ds = [] ∧
      db' = { db with
              bookings := updateFirst (fun b => b.id == bid)
                (fun b => { b with status := BookingStatus.accepted,
                                   accepted_time := some now })
                db.bookings } := by
  unfold accept_booking at h
  split at h
  · exact absurd h (by simp)
  · rename_i hrole
    split at h
    · exact absurd h (by simp)
    · rename_i booking hbk
      split at h
      · exact absurd h (by simp)
      · rename_i bus hbus
        split at h
        · exact absurd h (by simp)
        · split at h
          · exact absurd h (by simp)
          · split at h
            · exact absurd h (by simp)
            · rename_i hsup hpend havail
              refine ⟨booking, bus, hbk, hbus, by simpa using hrole,
                by simpa using hsup, by simpa using hpend, by omega, ?_, ?_⟩ <;>
                simp_all

theorem reject_booking_ok {db : DB} {u : User} {bid : Nat}
    {reason : Option String} {now : Nat} {db' : DB} {ds : List Delivery}
    (h : reject_booking db u bid reason now = .ok (db', ds)) :
    ∃ booking bus,
      db.bookings.find? (fun b => b.id == bid) = some booking ∧
      db.buses.find? (fun b => b.id == booking.bus_id) = some bus ∧
      u.role = Role.supervisor ∧
      bus.supervisor_id = some u.id ∧
      booking.status = BookingStatus.pending ∧
      ds = [] ∧
      db' = { db with
              bookings := updateFirst (fun b => b.id == bid)
                (fun b => { b with status := BookingStatus.rejected,
                                   rejected_time := some now,
                                   rejection_reason := reason })
                db.bookings } := by
  unfold reject_booking at h
  split at h
  · exact absurd h (by simp)
  · rename_i hrole
    split at h
    · exact absurd h (by simp)
    · rename_i booking hbk
      split at h
      · exact absurd h (by simp)
      · rename_i bus hbus
        split at h
        · exact absurd h (by simp)
        · split at h
          · exact absurd h (by simp)
          · rename_i hsup hpend
            refine ⟨booking, bus, hbk, hbus, by simpa using hrole,
              by simpa using hsup, by simpa using hpend, ?_, ?_⟩ <;>
              simp_all

theorem cancel_booking_ok {db : DB} {u : User} {bid : Nat}
    {reason : Option String} {now : Nat} {db' : DB} {ds : List Delivery}
    (h : cancel_booking db u bid reason now = .ok (db', ds)) :
    ∃ booking,
      db.bookings.find? (fun b => b.id == bid) = some booking ∧
      booking.status ≠ BookingStatus.rejected ∧
      booking.status ≠ BookingStatus.cancelled ∧
      ds = [] ∧
      ((∀ t, db.tickets.find? (fun t => t.booking_id == booking.id) = some t →
          t.status ≠ TicketStatus.confirmed) ∧
        db' = { db with
                bookings := updateFirst (fun b => b.id == bid)
                  (fun b => { b with status := BookingStatus.cancelled,
                                     cancelled_time := some now,
                                     cancellation_reason := reason })
                  db.bookings } ∨
       ∃ ticket bus,
         db.tickets.find? (fun t => t.booking_id == booking.id) = some ticket ∧
         ticket.status = TicketStatus.confirmed ∧
         db.buses.find? (fun b => b.id == booking.bus_id) = some bus ∧
         db' = { db with
                 tickets := updateFirst (fun t => t.booking_id == booking.id)
                   (fun t => { t with status := TicketStatus.cancelled,
                                      cancelled_at := some now })
                   db.tickets,
                 buses := updateFirst (fun b => b.id == booking.bus_id)
                   (fun b => { b with available_seats :=
                                 b.available_seats + ticket.seats_booked })
                   db.buses,
                 bookings := updateFirst (fun b => b.id == bid)
                   (fun b => { b with status := BookingStatus.cancelled,
                                      cancelled_time := some now,
                                      cancellation_reason := reason })
                   db.bookings }) := by
  simp only [cancel_booking] at h
  split at h
  · exact absurd h (by simp)
  · rename_i booking hbk
    split at h
    · exact absurd h (by simp)
    · split at h
      · exact absurd h (by simp)
      · rename_i hperm hstat
        have hstat' : booking.status ≠ BookingStatus.rejected ∧
            booking.status ≠ BookingStatus.cancelled := by
          constructor <;> intro hc <;> simp [hc] at hstat
        split at h
        · rename_i ticket htk
          split at h
          · rename_i hconf
            split at h
            · exact absurd h (by simp)
            · rename_i bus hbus
              refine ⟨booking, hbk, hstat'.1, hstat'.2, by simp_all, Or.inr
                ⟨ticket, bus, htk, by simpa using hconf, hbus, by simp_all⟩⟩
          · rename_i hnconf
            refine ⟨booking, hbk, hstat'.1, hstat'.2, by simp_all, Or.inl
              ⟨?_, by simp_all⟩⟩
            intro t ht
            rw [htk] at ht
            cases ht
            simpa using hnconf
        · rename_i htk
          refine ⟨booking, hbk, hstat'.1, hstat'.2, by simp_all, Or.inl
            ⟨?_, by simp_all⟩⟩
          intro t ht
          rw [htk] at ht
          cases ht

theorem confirm_ticket_endpoint_ok {db : DB} {u : User}
    {r : TicketConfirmRequest} {db' : DB} {ds : List Delivery}
    (h : confirm_ticket_endpoint db u r = .ok (db', ds)) :
    r.valid = true ∧ u.role = Role.passenger ∧
    ∃ booking bus,
      db.bookings.find? (fun b => b.id == r.booking_id) = some booking ∧
      booking.passenger_id = u.id ∧
      booking.status = BookingStatus.accepted ∧
      db.tickets.find? (fun t => t.booking_id == booking.id) = none ∧
      db.buses.find? (fun b => b.id == booking.bus_id) = some bus ∧
      r.seats_booked ≤ bus.available_seats ∧
      ds = [] ∧
      db' = { db with
              buses := updateFirst (fun b => b.id == booking.bus_id)
                (fun b => { b with available_seats :=
                              b.available_seats - r.seats_booked })
                db.buses,
              tickets := db.tickets ++
                [{ id := db.next_ticket_id,
                   booking_id := booking.id,
                   boarding_point_id := r.boarding_point_id,
                   seats_booked := r.seats_booked,
                   fare_per_seat := bus.fare,
                   total_fare := bus.fare * r.seats_booked,
                   status := TicketStatus.confirmed,
                   cancelled_at := none }],
              next_ticket_id := db.next_ticket_id + 1 } := by
  simp only [confirm_ticket_endpoint] at h
  split at h
  case isFalse => exact absurd h (by simp)
  rename_i hvalid
  simp only [confirm_ticket] at h
  split at h
  · exact absurd h (by simp)
  rename_i hrole
  split at h
  · exact absurd h (by simp)
  rename_i booking hbk
  split at h
  · exact absurd h (by simp)
  split at h
  · exact absurd h (by simp)
  rename_i howner hacc
  split at h
  · exact absurd h (by simp)
  rename_i htk
  split at h
  · exact absurd h (by simp)
  rename_i bp hbp
  split at h
  · exact absurd h (by simp)
  rename_i bus hbus
  split at h
  · exact absurd h (by simp)
  rename_i hseats
  refine ⟨hvalid, by simpa using hrole, booking, bus, hbk,
    by simpa using howner, by simpa using hacc, htk, hbus, by omega,
    by simp_all, by simp_all⟩

theorem cancel_ticket_ok {db : DB} {u : User} {tid : Nat}
    {reason : Option String} {now : Nat} {db' : DB} {ds : List Delivery}
    (h : cancel_ticket db u tid reason now = .ok (db', ds)) :
    u.role = Role.passenger ∧
    ∃ ticket booking,
      db.tickets.find? (fun t => t.id == tid) = some ticket ∧
      db.bookings.find? (fun b => b.id == ticket.booking_id) = some booking ∧
      booking.passenger_id = u.id ∧
      ticket.status = TicketStatus.confirmed ∧
      ds = [] ∧
      db'.tickets = updateFirst (fun t => t.id == tid)
        (fun t => { t with status := TicketStatus.cancelled,
                           cancelled_at := some now })
        db.tickets ∧
      db'.bookings = updateFirst (fun b => b.id == ticket.booking_id)
        (fun b => { b with status := BookingStatus.cancelled,
                           cancelled_time := some now,
                           cancellation_reason := reason })
        db.bookings ∧
      db'.boarding_points = db.boarding_points ∧
      db'.next_ticket_id = db.next_ticket_id ∧
      ((∃ bus, db.buses.find? (fun b => b.id == booking.bus_id) = some bus ∧
         db'.buses = updateFirst (fun b => b.id == booking.bus_id)
           (fun b => { b with available_seats :=
                         b.available_seats + ticket.seats_booked })
           db.buses) ∨
       (db.buses.find? (fun b => b.id == booking.bus_id) = none ∧
         db'.buses = db.buses)) := by
  simp only [cancel_ticket] at h
  split at h
  · exact absurd h (by simp)
  rename_i hrole
  split at h
  · exact absurd h (by simp)
  rename_i ticket htk
  split at h
  · exact absurd h (by simp)
  rename_i booking hbk
  split at h
  · exact absurd h (by simp)
  split at h
  · exact absurd h (by simp)
  rename_i howner hconf
  split at h
  · rename_i bus hbus
    simp only [Except.ok.injEq, Prod.mk.injEq] at h
    obtain ⟨hdb, hds⟩ := h
    subst hdb
    exact ⟨by simpa using hrole, ticket, booking, htk, hbk,
      by simpa using howner, by simpa using hconf, hds.symm, rfl, rfl, rfl, rfl,
      Or.inl ⟨bus, hbus, rfl⟩⟩
  · rename_i hbus
    simp only [Except.ok.injEq, Prod.mk.injEq] at h
    obtain ⟨hdb, hds⟩ := h
    subst hdb
    exact ⟨by simpa using hrole, ticket, booking, htk, hbk,
      by simpa using howner, by simpa using hconf, hds.symm, rfl, rfl, rfl, rfl,
      Or.inr ⟨hbus, rfl⟩⟩

/-! ### Forward evaluation of the handlers on their success paths -/

theorem accept_booking_run {db : DB} {u : User} {bid : Nat} (now : Nat)
    {bk : Booking} {bus : Bus}
    (hrole : u.role = Role.supervisor)
    (hbk : db.bookings.find? (fun b => b.id == bid) = some bk)
    (hbus : db.buses.find? (fun b => b.id == bk.bus_id) = some bus)
    (hsup : bus.supervisor_id = some u.id)
    (hpend : bk.status = BookingStatus.pending)
    (havail : 0 < bus.available_seats) :
    accept_booking db u bid now =
      .ok ({ db with
             bookings := updateFirst (fun b => b.id == bid)
               (fun b => { b with status := BookingStatus.accepted,
                                  accepted_time := some now })
               db.bookings }, []) := by
  unfold accept_booking
  rw [if_neg (by simp [hrole])]
  rw [hbk]
  simp only
  rw [hbus]
  simp only
  rw [if_neg (by simp [hsup]), if_neg (by simp [hpend]),
    if_neg (by omega)]

theorem reject_booking_run {db : DB} {u : User} {bid : Nat}
    (reason : Option String) (now : Nat) {bk : Booking} {bus : Bus}
    (hrole : u.role = Role.supervisor)
    (hbk : db.bookings.find? (fun b => b.id == bid) = some bk)
    (hbus : db.buses.find? (fun b => b.id == bk.bus_id) = some bus)
    (hsup : bus.supervisor_id = some u.id)
    (hpend : bk.status = BookingStatus.pending) :
    reject_booking db u bid reason now =
      .ok ({ db with
             bookings := updateFirst (fun b => b.id == bid)
               (fun b => { b with status := BookingStatus.rejected,
                                  rejected_time := some now,
                                  rejection_reason := reason })
               db.bookings }, []) := by
  unfold reject_booking
  rw [if_neg (by simp [hrole])]
  rw [hbk]
  simp only
  rw [hbus]
  simp only
  rw [if_neg (by simp [hsup]), if_neg (by simp [hpend])]

theorem cancel_ticket_run {db : DB} {u : User} {tid : Nat}
    (reason : Option String) (now : Nat) {t : Ticket} {bk : Booking}
    (hrole : u.role = Role.passenger)
    (htk : db.tickets.find? (fun x => x.id == tid) = some t)
    (hbk : db.bookings.find? (fun b => b.id == t.booking_id) = some bk)
    (howner : bk.passenger_id = u.id)
    (hconf : t.status = TicketStatus.confirmed) :
    cancel_ticket db u tid reason now =
      .ok ({ db with
             tickets := updateFirst (fun x => x.id == tid)
               (fun x => { x with status := TicketStatus.cancelled,
                                  cancelled_at := some now })
               db.tickets,
             buses :=
               match db.buses.find? (fun b => b.id == bk.bus_id) with
               | some _ =>
                 updateFirst (fun b => b.id == bk.bus_id)
                   (fun b => { b with available_seats :=
                                 b.available_seats + t.seats_booked })
                   db.buses
               | none => db.buses,
             bookings := updateFirst (fun b => b.id == t.booking_id)
               (fun b => { b with status := BookingStatus.cancelled,
                                  cancelled_time := some now,
                                  cancellation_reason := reason })
               db.bookings }, []) := by
  unfold cancel_ticket
  rw [if_neg (by simp [hrole])]
  rw [htk]
  simp only
  rw [hbk]
  simp only
  rw [if_neg (by simp [howner]), if_neg (by simp [hconf])]

theorem cancel_booking_run {db : DB} {u : User} {bid : Nat}
    (reason : Option String) (now : Nat) {bk : Booking}
    (hbk : db.bookings.find? (fun b => b.id == bid) = some bk)
    (hperm : ((u.role == Role.passenger && bk.passenger_id == u.id) ||
      (u.role == Role.supervisor &&
        (match db.buses.find? (fun b => b.id == bk.bus_id) with
         | some bus => bus.supervisor_id == some u.id
         | none => false))) = true)
    (hstat1 : bk.status ≠ BookingStatus.rejected)
    (hstat2 : bk.status ≠ BookingStatus.cancelled) :
    cancel_booking db u bid reason now =
      let bookings' := updateFirst (fun b => b.id == bid)
        (fun b => { b with status := BookingStatus.cancelled,
                           cancelled_time := some now,
                           cancellation_reason := reason })
        db.bookings
      match db.tickets.find? (fun t => t.booking_id == bk.id) with
      | some ticket =>
        if ticket.status == TicketStatus.confirmed then
          match db.buses.find? (fun b => b.id == bk.bus_id) with
          | none => .error .internalError
          | some _ =>
            .ok ({ db with
                   tickets := updateFirst (fun t => t.booking_id == bk.id)
                     (fun t => { t with status := TicketStatus.cancelled,
                                        cancelled_at := some now })
                     db.tickets,
                   buses := updateFirst (fun b => b.id == bk.bus_id)
                     (fun b => { b with available_seats :=
                                   b.available_seats + ticket.seats_booked })
                     db.buses,
                   bookings := bookings' }, [])
        else .ok ({ db with bookings := bookings' }, [])
      | none => .ok ({ db with bookings := bookings' }, []) := by
  unfold cancel_booking
  rw [hbk]
  simp only
  rw [if_neg ?hperm]
  case hperm => simp [hperm]
  rw [if_neg ?hstat]
  case hstat =>
    simp only [Bool.or_eq_true, beq_iff_eq]
    rintro (h | h)
    · exact hstat1 h
    · exact hstat2 h

theorem confirm_ticket_run {db : DB} {u : User} {r : TicketConfirmRequest}
    {bk : Booking} {bp : BoardingPoint} {bus : Bus}
    (hvalid : r.valid = true)
    (hrole : u.role = Role.passenger)
    (hbk : db.bookings.find? (fun b => b.id == r.booking_id) = some bk)
    (howner : bk.passenger_id = u.id)
    (hacc : bk.status = BookingStatus.accepted)
    (htk : db.tickets.find? (fun t => t.booking_id == bk.id) = none)
    (hbp : db.boarding_points.find? (fun x =>
      x.id == r.boarding_point_id && x.bus_id == bk.bus_id) = some bp)
    (hbus : db.buses.find? (fun b => b.id == bk.bus_id) = some bus)
    (hseats : r.seats_booked ≤ bus.available_seats) :
    confirm_ticket_endpoint db u r =
      .ok ({ db with
             buses := updateFirst (fun b => b.id == bk.bus_id)
               (fun b => { b with available_seats :=
                             b.available_seats - r.seats_booked })
               db.buses,
             tickets := db.tickets ++
               [{ id := db.next_ticket_id,
                  booking_id := bk.id,
                  boarding_point_id := r.boarding_point_id,
                  seats_booked := r.seats_booked,
                  fare_per_seat := bus.fare,
                  total_fare := bus.fare * r.seats_booked,
                  status := TicketStatus.confirmed,
                  cancelled_at := none }],
             next_ticket_id := db.next_ticket_id + 1 }, []) := by
  unfold confirm_ticket_endpoint
  rw [if_pos hvalid]
  unfold confirm_ticket
  rw [if_neg (by simp [hrole])]
  rw [hbk]
  simp only
  rw [if_neg (by simp [howner]), if_neg (by simp [hacc])]
  rw [htk]
  simp only
  rw [hbp]
  simp only
  rw [hbus]
  simp only
  rw [if_neg (by omega)]

/-! ### Preservation of well-formedness and the ledger invariants -/

theorem mem_updateFirst {p : α → Bool} {f : α → α} {l : List α} {x : α}
    (hx : x ∈ updateFirst p f l) : x ∈ l ∨ ∃ a ∈ l, x = f a := by
  induction l with
  | nil => simp [updateFirst] at hx
  | cons y ys ih =>
    by_cases hy : p y = true
    · simp only [updateFirst, hy, if_pos rfl] at hx
      rcases List.mem_cons.mp hx with rfl | hx
      · exact Or.inr ⟨y, by simp⟩
      · exact Or.inl (by simp [hx])
    · simp only [updateFirst, hy] at hx
      rw [if_neg (by simp [hy])] at hx
      rcases List.mem_cons.mp hx with rfl | hx
      · exact Or.inl (by simp)
      · rcases ih hx with h | ⟨a, ha, rfl⟩
        · exact Or.inl (by simp [h])
        · exact Or.inr ⟨a, by simp [ha]⟩

theorem find?_map_updateFirst {β : Type v} {proj : α → β} {p q : α → Bool}
    {g : α → α} (hq : ∀ a, q (g a) = q a) (hproj : ∀ a, proj (g a) = proj a)
    (l : List α) :
    ((updateFirst p g l).find? q).map proj = (l.find? q).map proj := by
  induction l with
  | nil => rfl
  | cons x xs ih =>
    by_cases hx : p x = true
    · by_cases hqx : q x = true <;>
        simp [updateFirst, hx, List.find?, hq, hproj, hqx]
    · have hx' : p x = false := by simpa using hx
      by_cases hqx : q x = true <;>
        simp [updateFirst, hx', List.find?, hqx, ih]

theorem nodup_key_updateFirst (key : α → β) {p : α → Bool} {f : α → α}
    {l : List α} (hf : ∀ a, key (f a) = key a)
    (h : (l.map key).Nodup) : ((updateFirst p f l).map key).Nodup := by
  rw [updateFirst_map_key key hf]
  exact h

theorem bookingBus_updateFirst {g : Booking → Booking} {p : Booking → Bool}
    (hid : ∀ b, (g b).id = b.id) (hbus : ∀ b, (g b).bus_id = b.bus_id)
    (bookings : List Booking) (bid : Nat) :
    bookingBus (updateFirst p g bookings) bid = bookingBus bookings bid := by
  unfold bookingBus
  exact find?_map_updateFirst (fun b => by simp [hid]) hbus bookings

theorem countsFor_congr {b1 b2 : List Booking}
    (h : ∀ bid, bookingBus b1 bid = bookingBus b2 bid) (bus_id : Nat)
    (t : Ticket) : countsFor b1 bus_id t = countsFor b2 bus_id t := by
  unfold countsFor
  rw [h]

theorem outstanding_congr {db db' : DB}
    (ht : db'.tickets = db.tickets)
    (hb : ∀ bid, bookingBus db'.bookings bid = bookingBus db.bookings bid)
    (bus_id : Nat) : outstanding db' bus_id = outstanding db bus_id := by
  unfold outstanding
  rw [ht, List.filter_congr (fun t _ => countsFor_congr hb bus_id t)]

theorem outstanding_split (bookings : List Booking) (x : Nat)
    (l1 l2 : List Ticket) (t : Ticket) :
    sumSeats ((l1 ++ t :: l2).filter (countsFor bookings x)) =
      sumSeats (l1.filter (countsFor bookings x)) +
      (if countsFor bookings x t then t.seats_booked else 0) +
      sumSeats (l2.filter (countsFor bookings x)) := by
  rw [List.filter_append, sumSeats_append, List.filter_cons]
  by_cases h : countsFor bookings x t
  · simp only [h, if_true, sumSeats]
    ring
  · simp only [h, Bool.false_eq_true, if_false]
    ring

theorem countsFor_cancelled (bookings : List Booking) (x : Nat) (t : Ticket)
    (now : Nat) :
    countsFor bookings x
      ({ t with status := TicketStatus.cancelled,
                cancelled_at := some now } : Ticket) = false := by
  simp [countsFor]

/-- How a lookup by key behaves after updating the row found under
another key: the updated row is returned (transformed) when the keys
agree, and the lookup is untouched otherwise. -/
theorem find?_after_update_key {l : List α} {key : α → Nat} {k : Nat}
    {a : α} {f : α → α} (hdec : l.find? (fun x => key x == k) = some a)
    (hid : ∀ x, key (f x) = key x) (z : Nat) :
    (updateFirst (fun x => key x == k) f l).find? (fun x => key x == z) =
      if z = key a then some (f a) else l.find? (fun x => key x == z) := by
  obtain ⟨l1, l2, hl, hl1, ha⟩ := find?_decomp hdec
  have hka : key a = k := by simpa using ha
  rw [hl, updateFirst_mid _ l2 hl1 ha]
  by_cases hz : z = key a
  · rw [if_pos hz]
    refine find?_mid_true l2 ?_ ?_
    · intro x hx
      have := hl1 x hx
      simp only [beq_eq_false_iff_ne] at this ⊢
      rw [hz, hka]
      exact this
    · simp [hid, hz]
  · rw [if_neg hz]
    refine find?_mid_congr l1 l2 ?_ ?_
    · simp only [beq_eq_false_iff_ne, hid]
      exact fun hcontra => hz hcontra.symm
    · simp only [beq_eq_false_iff_ne]
      exact fun hcontra => hz hcontra.symm

/-- In a list whose keys are unique, looking up the key of a member
returns that member. -/
theorem find?_eq_of_mem_nodup {l : List α} {key : α → Nat} {t : α}
    (hmem : t ∈ l) (hnd : (l.map key).Nodup) :
    l.find? (fun x => key x == key t) = some t := by
  induction l with
  | nil => simp at hmem
  | cons y ys ih =>
    rw [List.map_cons, List.nodup_cons] at hnd
    rcases List.mem_cons.mp hmem with rfl | hmem
    · simp [List.find?]
    · have hne : key y ≠ key t := by
        intro hcontra
        exact hnd.1 (hcontra ▸ List.mem_map_of_mem key hmem)
      rw [List.find?]
      rw [show (key y == key t) = false by simpa using hne]
      exact ih hmem hnd.2

/-- `SeatInv` only looks at bookings through `bookingBus`, so an update
that keeps `id` and `bus_id` preserves it. -/
theorem seatInv_bookings_update {db : DB} {g : Booking → Booking}
    {p : Booking → Bool}
    (hid : ∀ b, (g b).id = b.id) (hgbus : ∀ b, (g b).bus_id = b.bus_id)
    (hsi : SeatInv db) :
    SeatInv { db with bookings := updateFirst p g db.bookings } := by
  obtain ⟨h1, h2⟩ := hsi
  refine ⟨?_, h2⟩
  intro bus hb
  have hout : outstanding { db with bookings := updateFirst p g db.bookings }
      bus.id = outstanding db bus.id := by
    show sumSeats (List.filter
        (countsFor (updateFirst p g db.bookings) bus.id) db.tickets) =
      sumSeats (List.filter (countsFor db.bookings bus.id) db.tickets)
    rw [List.filter_congr (fun a _ => countsFor_congr
      (fun bid => bookingBus_updateFirst hid hgbus db.bookings bid) bus.id a)]
  rw [hout]
  exact h1 bus hb

/-- Cancelling one confirmed ticket and crediting its seats back to the
bus its booking references preserves the seat-ledger invariant, whatever
predicate located the ticket and however the bookings' statuses are
restamped. -/
theorem seatInv_credit {db : DB} {pt : Ticket → Bool} {t : Ticket}
    {bk : Booking} {bus0 : Bus} {now : Nat} {g : Booking → Booking}
    {pb : Booking → Bool}
    (hwf : DB.WF db) (hsi : SeatInv db)
    (htfind : db.tickets.find? pt = some t)
    (hbk : db.bookings.find? (fun b => b.id == t.booking_id) = some bk)
    (hbus : db.buses.find? (fun b => b.id == bk.bus_id) = some bus0)
    (hconf : t.status = TicketStatus.confirmed)
    (hgid : ∀ b, (g b).id = b.id) (hgbus : ∀ b, (g b).bus_id = b.bus_id) :
    SeatInv { db with
      tickets := updateFirst pt
        (fun x => { x with status := TicketStatus.cancelled,
                           cancelled_at := some now }) db.tickets,
      buses := updateFirst (fun b => b.id == bk.bus_id)
        (fun b => { b with available_seats :=
                      b.available_seats + t.seats_booked }) db.buses,
      bookings := updateFirst pb g db.bookings } := by
  obtain ⟨hs1, hs2⟩ := hsi
  obtain ⟨l1, l2, hT, hTl1, hTt⟩ := find?_decomp htfind
  obtain ⟨m1, m2, hB, hBl1, hBt⟩ := find?_decomp hbus
  have hbus0id : bus0.id = bk.bus_id := by simpa using hBt
  have htmem : t ∈ db.tickets := by rw [hT]; simp
  have hseats : 0 ≤ t.seats_booked := hs2 t htmem hconf
  have hcong : ∀ bid, bookingBus (updateFirst pb g db.bookings) bid =
      bookingBus db.bookings bid :=
    fun bid => bookingBus_updateFirst hgid hgbus db.bookings bid
  have houts : ∀ x : Nat,
      outstanding { db with
        tickets := updateFirst pt
          (fun y => { y with status := TicketStatus.cancelled,
                             cancelled_at := some now }) db.tickets,
        buses := updateFirst (fun b => b.id == bk.bus_id)
          (fun b => { b with available_seats :=
                        b.available_seats + t.seats_booked }) db.buses,
        bookings := updateFirst pb g db.bookings } x =
      outstanding db x -
        (if countsFor db.bookings x t then t.seats_booked else 0) := by
    intro x
    unfold outstanding
    simp only
    rw [List.filter_congr
      (fun a _ => countsFor_congr (fun bid => hcong bid) x a)]
    rw [hT, updateFirst_mid _ l2 hTl1 hTt]
    rw [outstanding_split, outstanding_split, countsFor_cancelled]
    simp only [Bool.false_eq_true, if_false]
    ring
  have hattr : bookingBus db.bookings t.booking_id = some bk.bus_id := by
    unfold bookingBus
    rw [hbk]
    rfl
  constructor
  · intro b hb
    simp only at hb
    rw [hB, updateFirst_mid _ m2 hBl1 hBt] at hb
    have hBkeys := nodup_mid_key Bus.id (hB ▸ hwf.1)
    rcases List.mem_append.mp hb with hb1 | hb1
    · have hbold : b ∈ db.buses := by rw [hB]; simp [hb1]
      have hbne : b.id ≠ bus0.id := hBkeys.1 b hb1
      have hcnt : countsFor db.bookings b.id t = false := by
        unfold countsFor
        rw [hattr]
        simp [hconf, hbus0id]
        intro hcontra
        exact absurd hcontra.symm (hbus0id ▸ hbne)
      have := hs1 b hbold
      rw [houts b.id, hcnt]
      simpa using this
    · rcases List.mem_cons.mp hb1 with rfl | hb1
      · have hbold : bus0 ∈ db.buses := by rw [hB]; simp
        have hcnt : countsFor db.bookings bus0.id t = true := by
          unfold countsFor
          rw [hattr]
          simp [hconf, hbus0id]
        have hsb := hs1 bus0 hbold
        constructor
        · simp only
          omega
        · show bus0.available_seats + t.seats_booked +
            outstanding _ bus0.id ≤ bus0.seat_capacity
          rw [houts bus0.id, hcnt]
          simp only [if_true]
          omega
      · have hbold : b ∈ db.buses := by rw [hB]; simp [hb1]
        have hbne : b.id ≠ bus0.id := hBkeys.2 b hb1
        have hcnt : countsFor db.bookings b.id t = false := by
          unfold countsFor
          rw [hattr]
          simp [hconf, hbus0id]
          intro hcontra
          exact absurd hcontra.symm (hbus0id ▸ hbne)
        have := hs1 b hbold
        rw [houts b.id, hcnt]
        simpa using this
  · intro x hx hxconf
    simp only at hx
    rcases mem_updateFirst hx with hx | ⟨a, ha, rfl⟩
    · exact hs2 x hx hxconf
    · simp at hxconf

/-- Cancelling one confirmed ticket without any seat credit (the bus row
is absent) still keeps the ledger within bounds: the outstanding sum can
only shrink. -/
theorem seatInv_cancel_nobus {db : DB} {pt : Ticket → Bool} {t : Ticket}
    {now : Nat} {g : Booking → Booking} {pb : Booking → Bool}
    (hsi : SeatInv db)
    (htfind : db.tickets.find? pt = some t)
    (hconf : t.status = TicketStatus.confirmed)
    (hgid : ∀ b, (g b).id = b.id) (hgbus : ∀ b, (g b).bus_id = b.bus_id) :
    SeatInv { db with
      tickets := updateFirst pt
        (fun x => { x with status := TicketStatus.cancelled,
                           cancelled_at := some now }) db.tickets,
      bookings := updateFirst pb g db.bookings } := by
  obtain ⟨hs1, hs2⟩ := hsi
  obtain ⟨l1, l2, hT, hTl1, hTt⟩ := find?_decomp htfind
  have htmem : t ∈ db.tickets := by rw [hT]; simp
  have hseats : 0 ≤ t.seats_booked := hs2 t htmem hconf
  have hcong : ∀ bid, bookingBus (updateFirst pb g db.bookings) bid =
      bookingBus db.bookings bid :=
    fun bid => bookingBus_updateFirst hgid hgbus db.bookings bid
  have houts : ∀ x : Nat,
      outstanding { db with
        tickets := updateFirst pt
          (fun y => { y with status := TicketStatus.cancelled,
                             cancelled_at := some now }) db.tickets,
        bookings := updateFirst pb g db.bookings } x =
      outstanding db x -
        (if countsFor db.bookings x t then t.seats_booked else 0) := by
    intro x
    unfold outstanding
    simp only
    rw [List.filter_congr
      (fun a _ => countsFor_congr (fun bid => hcong bid) x a)]
    rw [hT, updateFirst_mid _ l2 hTl1 hTt]
    rw [outstanding_split, outstanding_split, countsFor_cancelled]
    simp only [Bool.false_eq_true, if_false]
    ring
  constructor
  · intro b hb
    simp only at hb
    have := hs1 b hb
    rw [houts b.id]
    have hnn : 0 ≤ (if countsFor db.bookings b.id t then t.seats_booked
        else 0) := by
      split
      · exact hseats
      · exact le_refl 0
    constructor
    · exact this.1
    · omega
  · intro x hx hxconf
    simp only at hx
    rcases mem_updateFirst hx with hx | ⟨a, ha, rfl⟩
    · exact hs2 x hx hxconf
    · simp at hxconf

theorem seatInv_applyOp (op : Op) {db : DB} (hwf : DB.WF db)
    (hsi : SeatInv db) : SeatInv (applyOp op db) := by
  unfold applyOp
  cases hrun : runOp op db with
  | error e => exact hsi
  | ok res =>
    obtain ⟨db', ds⟩ := res
    show SeatInv db'
    cases op with
    | acceptBooking u bid now =>
      obtain ⟨bk, bus, _, _, _, _, _, _, _, hdb⟩ := accept_booking_ok hrun
      subst hdb
      exact seatInv_bookings_update (fun b => rfl) (fun b => rfl) hsi
    | rejectBooking u bid reason now =>
      obtain ⟨bk, bus, _, _, _, _, _, _, hdb⟩ := reject_booking_ok hrun
      subst hdb
      exact seatInv_bookings_update (fun b => rfl) (fun b => rfl) hsi
    | cancelBooking u bid reason now =>
      obtain ⟨bk, hbkfind, _, _, _, hcase⟩ := cancel_booking_ok hrun
      have hbid : bk.id = bid := by simpa using List.find?_some hbkfind
      rcases hcase with ⟨_, hdb⟩ | ⟨t, bus, htk, hconf, hbus, hdb⟩ <;>
        subst hdb
      · exact seatInv_bookings_update (fun b => rfl) (fun b => rfl) hsi
      · have htb : t.booking_id = bk.id := by simpa using List.find?_some htk
        have hbk' : db.bookings.find?
            (fun b => b.id == t.booking_id) = some bk := by
          rw [htb, hbid]
          exact hbkfind
        exact seatInv_credit hwf hsi htk hbk' hbus hconf
          (fun b => rfl) (fun b => rfl)
    | confirmTicket u r =>
      obtain ⟨hvalid, _, bk, bus, hbkfind, _, _, htk, hbus, hsea, _, hdb⟩ :=
        confirm_ticket_endpoint_ok hrun
      subst hdb
      obtain ⟨hs1, hs2⟩ := hsi
      have hbid : bk.id = r.booking_id := by
        simpa using List.find?_some hbkfind
      have hseats1 : 0 < r.seats_booked := by
        have := hvalid
        unfold TicketConfirmRequest.valid at this
        simp only [Bool.and_eq_true, decide_eq_true_eq] at this
        exact this.1.2
      obtain ⟨m1, m2, hB, hBl1, hBt⟩ := find?_decomp hbus
      have hbus0id : bus.id = bk.bus_id := by simpa using hBt
      have hBkeys := nodup_mid_key Bus.id (hB ▸ hwf.1)
      have hattr : bookingBus db.bookings bk.id = some bk.bus_id := by
        unfold bookingBus
        rw [hbid, hbkfind]
        rfl
      have houts : ∀ x : Nat,
          outstanding { db with
            buses := updateFirst (fun b => b.id == bk.bus_id)
              (fun b => { b with available_seats :=
                            b.available_seats - r.seats_booked }) db.buses,
            tickets := db.tickets ++
              [{ id := db.next_ticket_id,
                 booking_id := bk.id,
                 boarding_point_id := r.boarding_point_id,
                 seats_booked := r.seats_booked,
                 fare_per_seat := bus.fare,
                 total_fare := bus.fare * r.seats_booked,
                 status := TicketStatus.confirmed,
                 cancelled_at := none }],
            next_ticket_id := db.next_ticket_id + 1 } x =
          outstanding db x +
            (if bk.bus_id = x then r.seats_booked else 0) := by
        intro x
        unfold outstanding
        simp only
        rw [List.filter_append, sumSeats_append, List.filter_cons]
        have hc : countsFor db.bookings x
            ({ id := db.next_ticket_id,
               booking_id := bk.id,
               boarding_point_id := r.boarding_point_id,
               seats_booked := r.seats_booked,
               fare_per_seat := bus.fare,
               total_fare := bus.fare * r.seats_booked,
               status := TicketStatus.confirmed,
               cancelled_at := none } : Ticket) =
            decide (bk.bus_id = x) := by
          unfold countsFor
          simp only
          rw [hattr]
          by_cases hxx : bk.bus_id = x <;> simp [hxx]
        rw [hc]
        by_cases hx : bk.bus_id = x
        · simp [hx, sumSeats]
        · simp [hx, sumSeats]
      constructor
      · intro b hb
        simp only at hb
        rw [hB, updateFirst_mid _ m2 hBl1 hBt] at hb
        rcases List.mem_append.mp hb with hb1 | hb1
        · have hbold : b ∈ db.buses := by rw [hB]; simp [hb1]
          have hbne : b.id ≠ bus.id := hBkeys.1 b hb1
          have hneq : ¬ (bk.bus_id = b.id) := by
            intro hcontra
            exact hbne (by omega)
          have := hs1 b hbold
          rw [houts b.id, if_neg hneq]
          simpa using this
        · rcases List.mem_cons.mp hb1 with rfl | hb1
          · have hbold : bus ∈ db.buses := by rw [hB]; simp
            have hsb := hs1 bus hbold
            constructor
            · simp only
              omega
            · show bus.available_seats - r.seats_booked +
                outstanding _ bus.id ≤ bus.seat_capacity
              rw [houts bus.id]
              rw [if_pos (hbus0id ▸ rfl)]
              omega
          · have hbold : b ∈ db.buses := by rw [hB]; simp [hb1]
            have hbne : b.id ≠ bus.id := hBkeys.2 b hb1
            have hneq : ¬ (bk.bus_id = b.id) := by
              intro hcontra
              exact hbne (by omega)
            have := hs1 b hbold
            rw [houts b.id, if_neg hneq]
            simpa using this
      · intro x hx hxconf
        simp only at hx
        rcases List.mem_append.mp hx with hx | hx
        · exact hs2 x hx hxconf
        · simp only [List.mem_singleton] at hx
          subst hx
          simp only
          omega
    | cancelTicket u tid reason now =>
      obtain ⟨_, t, bk, htk, hbk, _, hconf, _, htk', hbk', hbp', hnext, hcase⟩ :=
        cancel_ticket_ok hrun
      obtain ⟨bs', bks', tks', bps', nx'⟩ := db'
      simp only at htk' hbk' hbp' hnext
      subst htk' hbk' hbp' hnext
      rcases hcase with ⟨bus, hbus, hb⟩ | ⟨hbus, hb⟩ <;> simp only at hb <;>
        subst hb
      · exact seatInv_credit hwf hsi htk hbk hbus hconf
          (fun b => rfl) (fun b => rfl)
      · exact seatInv_cancel_nobus hsi htk hconf (fun b => rfl) (fun b => rfl)

theorem WF_applyOp (op : Op) {db : DB} (hwf : DB.WF db) :
    DB.WF (applyOp op db) := by
  obtain ⟨hb1, hb2, hb3, hb4, hb5⟩ := hwf
  unfold applyOp
  cases hrun : runOp op db with
  | error e => exact ⟨hb1, hb2, hb3, hb4, hb5⟩
  | ok res =>
    obtain ⟨db', ds⟩ := res
    show DB.WF db'
    cases op with
    | acceptBooking u bid now =>
      obtain ⟨bk, bus, _, _, _, _, _, _, _, hdb⟩ := accept_booking_ok hrun
      subst hdb
      exact ⟨hb1, nodup_key_updateFirst Booking.id (fun b => rfl) hb2,
        hb3, hb4, hb5⟩
    | rejectBooking u bid reason now =>
      obtain ⟨bk, bus, _, _, _, _, _, _, hdb⟩ := reject_booking_ok hrun
      subst hdb
      exact ⟨hb1, nodup_key_updateFirst Booking.id (fun b => rfl) hb2,
        hb3, hb4, hb5⟩
    | cancelBooking u bid reason now =>
      obtain ⟨bk, _, _, _, _, hcase⟩ := cancel_booking_ok hrun
      rcases hcase with ⟨_, hdb⟩ | ⟨t, bus, _, _, _, hdb⟩ <;> subst hdb
      · exact ⟨hb1, nodup_key_updateFirst Booking.id (fun b => rfl) hb2,
          hb3, hb4, hb5⟩
      · refine ⟨nodup_key_updateFirst Bus.id (fun b => rfl) hb1,
          nodup_key_updateFirst Booking.id (fun b => rfl) hb2,
          nodup_key_updateFirst Ticket.id (fun t => rfl) hb3,
          nodup_key_updateFirst Ticket.booking_id (fun t => rfl) hb4, ?_⟩
        intro x hx
        rcases mem_updateFirst hx with hx | ⟨a, ha, rfl⟩
        · exact hb5 x hx
        · exact hb5 a ha
    | confirmTicket u r =>
      obtain ⟨_, _, bk, bus, _, _, _, htk, _, _, _, hdb⟩ :=
        confirm_ticket_endpoint_ok hrun
      subst hdb
      have hfresh : ∀ t ∈ db.tickets, t.id ≠ db.next_ticket_id :=
        fun t ht => Nat.ne_of_lt (hb5 t ht)
      have hnew : ∀ t ∈ db.tickets, t.booking_id ≠ bk.id := by
        intro t ht
        have := List.find?_eq_none.mp htk t ht
        simpa using this
      refine ⟨nodup_key_updateFirst Bus.id (fun b => rfl) hb1, hb2,
        ?_, ?_, ?_⟩
      · simp only [List.map_append, List.map_cons, List.map_nil]
        rw [List.nodup_append]
        refine ⟨hb3, List.nodup_singleton _, ?_⟩
        intro x hx hy
        simp only [List.mem_singleton] at hy
        subst hy
        obtain ⟨t, ht, hteq⟩ := List.mem_map.mp hx
        exact hfresh t ht hteq
      · simp only [List.map_append, List.map_cons, List.map_nil]
        rw [List.nodup_append]
        refine ⟨hb4, List.nodup_singleton _, ?_⟩
        intro x hx hy
        simp only [List.mem_singleton] at hy
        subst hy
        obtain ⟨t, ht, hteq⟩ := List.mem_map.mp hx
        exact hnew t ht hteq
      · intro t ht
        rcases List.mem_append.mp ht with ht | ht
        · exact Nat.lt_succ_of_lt (hb5 t ht)
        · simp only [List.mem_singleton] at ht
          subst ht
          exact Nat.lt_succ_self _
    | cancelTicket u tid reason now =>
      obtain ⟨_, t, bk, _, _, _, _, _, htk', hbk', _, hnext, hcase⟩ :=
        cancel_ticket_ok hrun
      have hbuses : (db'.buses.map Bus.id).Nodup := by
        rcases hcase with ⟨bus, _, hb⟩ | ⟨_, hb⟩ <;> rw [hb]
        · exact nodup_key_updateFirst Bus.id (fun b => rfl) hb1
        · exact hb1
      refine ⟨hbuses, by
        rw [hbk']
        exact nodup_key_updateFirst Booking.id (fun b => rfl) hb2, by
        rw [htk']
        exact nodup_key_updateFirst Ticket.id (fun t => rfl) hb3, by
        rw [htk']
        exact nodup_key_updateFirst Ticket.booking_id (fun t => rfl) hb4, ?_⟩
      intro x hx
      rw [htk'] at hx
      rw [hnext]
      rcases mem_updateFirst hx with hx | ⟨a, ha, rfl⟩
      · exact hb5 x hx
      · exact hb5 a ha

theorem ticketsConsistent_applyOp (op : Op) {db : DB} (hwf : DB.WF db)
    (htc : TicketsConsistent db) : TicketsConsistent (applyOp op db) := by
  unfold applyOp
  cases hrun : runOp op db with
  | error e => exact htc
  | ok res =>
    obtain ⟨db', ds⟩ := res
    show TicketsConsistent db'
    cases op with
    | acceptBooking u bid now =>
      obtain ⟨bk, bus, hbkfind, _, _, _, hpend, _, _, hdb⟩ :=
        accept_booking_ok hrun
      subst hdb
      intro t ht hconf b hb
      simp only at ht hb
      rw [find?_after_update_key hbkfind ?hid t.booking_id] at hb
      case hid => exact fun x => rfl
      split at hb
      · rename_i hz
        exfalso
        have hbkid : bk.id = bid := by simpa using List.find?_some hbkfind
        have hold : db.bookings.find? (fun x => x.id == t.booking_id) =
            some bk := by
          rw [hz, hbkid]
          exact hbkfind
        have hacc := htc t ht hconf bk hold
        rw [hacc] at hpend
        simp at hpend
      · exact htc t ht hconf b hb
    | rejectBooking u bid reason now =>
      obtain ⟨bk, bus, hbkfind, _, _, _, hpend, _, hdb⟩ :=
        reject_booking_ok hrun
      subst hdb
      intro t ht hconf b hb
      simp only at ht hb
      rw [find?_after_update_key hbkfind ?hid t.booking_id] at hb
      case hid => exact fun x => rfl
      split at hb
      · rename_i hz
        exfalso
        have hbkid : bk.id = bid := by simpa using List.find?_some hbkfind
        have hold : db.bookings.find? (fun x => x.id == t.booking_id) =
            some bk := by
          rw [hz, hbkid]
          exact hbkfind
        have hacc := htc t ht hconf bk hold
        rw [hacc] at hpend
        simp at hpend
      · exact htc t ht hconf b hb
    | cancelBooking u bid reason now =>
      obtain ⟨bk, hbkfind, _, _, _, hcase⟩ := cancel_booking_ok hrun
      have hbkid : bk.id = bid := by simpa using List.find?_some hbkfind
      rcases hcase with ⟨hnoconf, hdb⟩ | ⟨t0, bus, htk, hconf0, hbus, hdb⟩ <;>
        subst hdb
      · intro t ht hconf b hb
        simp only at ht hb
        rw [find?_after_update_key hbkfind ?hid t.booking_id] at hb
        case hid => exact fun x => rfl
        split at hb
        · rename_i hz
          exfalso
          have hfind : db.tickets.find?
              (fun x => x.booking_id == t.booking_id) = some t :=
            find?_eq_of_mem_nodup ht hwf.2.2.2.1
          rw [hz] at hfind
          exact hnoconf t hfind hconf
        · exact htc t ht hconf b hb
      · intro t ht hconf b hb
        simp only at ht hb
        obtain ⟨l1, l2, hT, hTl1, hTt⟩ := find?_decomp htk
        rw [hT, updateFirst_mid _ l2 hTl1 hTt] at ht
        have hkeys := nodup_mid_key Ticket.booking_id (hT ▸ hwf.2.2.2.1)
        have ht0b : t0.booking_id = bk.id := by simpa using List.find?_some htk
        have hne : t.booking_id ≠ bk.id := by
          rcases List.mem_append.mp ht with h1 | h1
          · exact fun hc => hkeys.1 t h1 (hc.trans ht0b.symm)
          · rcases List.mem_cons.mp h1 with rfl | h1
            · simp at hconf
            · exact fun hc => hkeys.2 t h1 (hc.trans ht0b.symm)
        have htold : t ∈ db.tickets := by
          rw [hT]
          rcases List.mem_append.mp ht with h1 | h1
          · simp [h1]
          · rcases List.mem_cons.mp h1 with rfl | h1
            · simp at hconf
            · simp [h1]
        rw [find?_after_update_key hbkfind ?hid t.booking_id] at hb
        case hid => exact fun x => rfl
        split at hb
        · rename_i hz
          exact absurd hz hne
        · exact htc t htold hconf b hb
    | confirmTicket u r =>
      obtain ⟨hvalid, _, bk, bus, hbkfind, _, hacc, htk, hbus, _, _, hdb⟩ :=
        confirm_ticket_endpoint_ok hrun
      subst hdb
      have hbid : bk.id = r.booking_id := by simpa using List.find?_some hbkfind
      intro t ht hconf b hb
      simp only at ht hb
      rcases List.mem_append.mp ht with h1 | h1
      · exact htc t h1 hconf b hb
      · simp only [List.mem_singleton] at h1
        subst h1
        simp only at hb
        rw [hbid, hbkfind] at hb
        cases hb
        exact hacc
    | cancelTicket u tid reason now =>
      obtain ⟨_, t0, bk, htk, hbk, _, hconf0, _, htk', hbk', _, _, _⟩ :=
        cancel_ticket_ok hrun
      intro t ht hconf b hb
      rw [htk'] at ht
      rw [hbk'] at hb
      obtain ⟨l1, l2, hT, hTl1, hTt⟩ := find?_decomp htk
      rw [hT, updateFirst_mid _ l2 hTl1 hTt] at ht
      have hkeys := nodup_mid_key Ticket.booking_id (hT ▸ hwf.2.2.2.1)
      have hbkid : bk.id = t0.booking_id := by simpa using List.find?_some hbk
      have hne : t.booking_id ≠ t0.booking_id := by
        rcases List.mem_append.mp ht with h1 | h1
        · exact hkeys.1 t h1
        · rcases List.mem_cons.mp h1 with rfl | h1
          · simp at hconf
          · exact hkeys.2 t h1
      have htold : t ∈ db.tickets := by
        rw [hT]
        rcases List.mem_append.mp ht with h1 | h1
        · simp [h1]
        · rcases List.mem_cons.mp h1 with rfl | h1
          · simp at hconf
          · simp [h1]
      rw [find?_after_update_key hbk ?hid t.booking_id] at hb
      case hid => exact fun x => rfl
      split at hb
      · rename_i hz
        exact absurd (hz.trans hbkid) hne
      · exact htc t htold hconf b hb

/-- All three reachable-state invariants are preserved by every
operation. -/
theorem inv_applyOp (op : Op) {db : DB} (hinv : Inv db) :
    Inv (applyOp op db) :=
  ⟨WF_applyOp op hinv.1, seatInv_applyOp op hinv.1 hinv.2.1,
    ticketsConsistent_applyOp op hinv.1 hinv.2.2⟩

/-- All three reachable-state invariants are preserved by every sequence
of operations. -/
theorem inv_applyOps (ops : List Op) {db : DB} (hinv : Inv db) :
    Inv (applyOps ops db) := by
  induction ops generalizing db with
  | nil => exact hinv
  | cons op rest ih => exact ih (inv_applyOp op hinv)

/-! ### Booking-status monotonicity -/

/-- One operation either leaves a booking's status untouched, acts on a
`pending` booking, or performs the `accepted → cancelled` transition. -/
theorem bookingStatus_step (op : Op) {db : DB} (hinv : Inv db) (bid : Nat) :
    bookingStatusOf (applyOp op db) bid = bookingStatusOf db bid ∨
    bookingStatusOf db bid = some BookingStatus.pending ∨
    (bookingStatusOf db bid = some BookingStatus.accepted ∧
      bookingStatusOf (applyOp op db) bid = some BookingStatus.cancelled) := by
  cases hrun : runOp op db with
  | error e =>
    have happ : applyOp op db = db := by
      unfold applyOp
      rw [hrun]
    rw [happ]
    exact Or.inl rfl
  | ok res =>
    obtain ⟨db', ds⟩ := res
    have happ : applyOp op db = db' := by
      unfold applyOp
      rw [hrun]
    rw [happ]
    cases op with
    | acceptBooking u q now =>
      obtain ⟨bk, bus, hbkfind, _, _, _, hpend, _, _, hdb⟩ :=
        accept_booking_ok hrun
      have hbkid : bk.id = q := by simpa using List.find?_some hbkfind
      subst hdb
      unfold bookingStatusOf
      simp only
      rw [find?_after_update_key hbkfind ?hid bid]
      case hid => exact fun x => rfl
      by_cases hz : bid = bk.id
      · rw [if_pos hz]
        right
        left
        rw [hz, hbkid, hbkfind]
        simp [hpend]
      · rw [if_neg hz]
        exact Or.inl rfl
    | rejectBooking u q reason now =>
      obtain ⟨bk, bus, hbkfind, _, _, _, hpend, _, hdb⟩ :=
        reject_booking_ok hrun
      have hbkid : bk.id = q := by simpa using List.find?_some hbkfind
      subst hdb
      unfold bookingStatusOf
      simp only
      rw [find?_after_update_key hbkfind ?hid bid]
      case hid => exact fun x => rfl
      by_cases hz : bid = bk.id
      · rw [if_pos hz]
        right
        left
        rw [hz, hbkid, hbkfind]
        simp [hpend]
      · rw [if_neg hz]
        exact Or.inl rfl
    | cancelBooking u q reason now =>
      obtain ⟨bk, hbkfind, hstat1, hstat2, _, hcase⟩ := cancel_booking_ok hrun
      have hbkid : bk.id = q := by simpa using List.find?_some hbkfind
      have hbookings : db'.bookings = updateFirst (fun b => b.id == q)
          (fun b => { b with status := BookingStatus.cancelled,
                             cancelled_time := some now,
                             cancellation_reason := reason })
          db.bookings := by
        rcases hcase with ⟨_, hdb⟩ | ⟨t0, bus, _, _, _, hdb⟩ <;>
          subst hdb <;> rfl
      unfold bookingStatusOf
      rw [hbookings]
      rw [find?_after_update_key hbkfind ?hid bid]
      case hid => exact fun x => rfl
      by_cases hz : bid = bk.id
      · rw [if_pos hz]
        have hold : db.bookings.find? (fun b => b.id == bid) = some bk := by
          rw [hz, hbkid]
          exact hbkfind
        rw [hold]
        cases hcs : bk.status with
        | pending =>
          right
          left
          simp [hcs]
        | accepted =>
          right
          right
          exact ⟨by simp [hcs], by simp⟩
        | rejected => exact absurd hcs hstat1
        | cancelled => exact absurd hcs hstat2
      · rw [if_neg hz]
        exact Or.inl rfl
    | confirmTicket u r =>
      obtain ⟨_, _, bk, bus, _, _, _, _, _, _, _, hdb⟩ :=
        confirm_ticket_endpoint_ok hrun
      subst hdb
      exact Or.inl rfl
    | cancelTicket u tid reason now =>
      obtain ⟨_, t0, bk, htk, hbk, _, hconf0, _, _, hbk', _, _, _⟩ :=
        cancel_ticket_ok hrun
      have hacc : bk.status = BookingStatus.accepted :=
        hinv.2.2 t0 (List.mem_of_find?_eq_some htk) hconf0 bk hbk
      unfold bookingStatusOf
      rw [hbk']
      rw [find?_after_update_key hbk ?hid bid]
      case hid => exact fun x => rfl
      by_cases hz : bid = bk.id
      · rw [if_pos hz]
        have hbkid : bk.id = t0.booking_id := by
          simpa using List.find?_some hbk
        have hold : db.bookings.find? (fun b => b.id == bid) = some bk := by
          rw [hz, hbkid]
          exact hbk
        rw [hold]
        right
        right
        exact ⟨by simp [hacc], by simp⟩
      · rw [if_neg hz]
        exact Or.inl rfl

/-- Once a booking has left `pending`, the only transition any sequence
of operations can still perform on it is `accepted → cancelled`. -/
theorem bookingStatus_terminal (ops : List Op) {db : DB} (hinv : Inv db)
    {bid : Nat} {s : BookingStatus}
    (hs : bookingStatusOf db bid = some s) (hterm : s ≠ BookingStatus.pending) :
    bookingStatusOf (applyOps ops db) bid = some s ∨
    (s = BookingStatus.accepted ∧
      bookingStatusOf (applyOps ops db) bid = some BookingStatus.cancelled) := by
  induction ops generalizing db s with
  | nil => exact Or.inl hs
  | cons op rest ih =>
    have hinv' := inv_applyOp op hinv
    rcases bookingStatus_step op hinv bid with hstep | hstep | ⟨hacc, hstep⟩
    · show bookingStatusOf (applyOps rest (applyOp op db)) bid = some s ∨ _
      exact ih hinv' (hstep.trans hs) hterm
    · rw [hs] at hstep
      cases hstep
      exact absurd rfl hterm
    · rw [hs] at hacc
      cases hacc
      rcases ih hinv' hstep (by simp) with h | ⟨_, h⟩
      · exact Or.inr ⟨rfl, h⟩
      · exact Or.inr ⟨rfl, h⟩

/-! ### Cancelled tickets are absorbing; seat credits happen at most once -/

theorem ticket_cancelled_absorbing (op : Op) {db : DB} (hwf : DB.WF db)
    {tid : Nat} (h : ticketStatusOf db tid = some TicketStatus.cancelled) :
    ticketStatusOf (applyOp op db) tid = some TicketStatus.cancelled := by
  obtain ⟨t, hfind, htstat⟩ : ∃ t, db.tickets.find? (fun x => x.id == tid) =
      some t ∧ t.status = TicketStatus.cancelled := by
    unfold ticketStatusOf at h
    cases hf : db.tickets.find? (fun x => x.id == tid) with
    | none => rw [hf] at h; cases h
    | some t =>
      rw [hf] at h
      exact ⟨t, rfl, by simpa using h⟩
  cases hrun : runOp op db with
  | error e =>
    have happ : applyOp op db = db := by
      unfold applyOp
      rw [hrun]
    rw [happ, h]
  | ok res =>
    obtain ⟨db', ds⟩ := res
    have happ : applyOp op db = db' := by
      unfold applyOp
      rw [hrun]
    rw [happ]
    cases op with
    | acceptBooking u q now =>
      obtain ⟨_, _, _, _, _, _, _, _, _, hdb⟩ := accept_booking_ok hrun
      subst hdb
      exact h
    | rejectBooking u q reason now =>
      obtain ⟨_, _, _, _, _, _, _, _, hdb⟩ := reject_booking_ok hrun
      subst hdb
      exact h
    | cancelBooking u q reason now =>
      obtain ⟨bk, hbkfind, _, _, _, hcase⟩ := cancel_booking_ok hrun
      rcases hcase with ⟨_, hdb⟩ | ⟨t0, bus, htk, hconf0, hbus, hdb⟩ <;>
        subst hdb
      · exact h
      · obtain ⟨l1, l2, hT, hTl1, hTt⟩ := find?_decomp htk
        have hkeys := nodup_mid_key Ticket.id (hT ▸ hwf.2.2.1)
        by_cases hidq : t0.id = tid
        · exfalso
          have hf0 : db.tickets.find? (fun x => x.id == tid) = some t0 := by
            rw [hT]
            refine find?_mid_true l2 ?_ (by simp [hidq])
            intro x hx
            have := hkeys.1 x hx
            simp only [beq_eq_false_iff_ne]
            rw [hidq] at this
            exact this
          rw [hf0] at hfind
          cases hfind
          rw [hconf0] at htstat
          cases htstat
        · unfold ticketStatusOf
          simp only
          rw [hT, updateFirst_mid _ l2 hTl1 hTt]
          rw [find?_mid_congr l1 l2 (by simpa using hidq) (by simpa using hidq)]
          rw [hT] at hfind
          rw [hfind]
          simp [htstat]
    | confirmTicket u r =>
      obtain ⟨_, _, bk, bus, _, _, _, _, _, _, _, hdb⟩ :=
        confirm_ticket_endpoint_ok hrun
      subst hdb
      unfold ticketStatusOf
      simp only
      rw [find?_append_left hfind]
      simp [htstat]
    | cancelTicket u tid' reason now =>
      obtain ⟨_, t0, bk, htk, hbk, _, hconf0, _, htk', _, _, _, _⟩ :=
        cancel_ticket_ok hrun
      by_cases hidq : tid' = tid
      · exfalso
        rw [hidq] at htk
        rw [htk] at hfind
        cases hfind
        rw [hconf0] at htstat
        cases htstat
      · obtain ⟨l1, l2, hT, hTl1, hTt⟩ := find?_decomp htk
        have ht0id : t0.id = tid' := by simpa using hTt
        unfold ticketStatusOf
        rw [htk']
        rw [hT, updateFirst_mid _ l2 hTl1 hTt]
        have hne : (t0.id == tid) = false := by
          simp only [beq_eq_false_iff_ne]
          rw [ht0id]
          exact hidq
        rw [find?_mid_congr l1 l2 (by simpa using hne) hne]
        rw [hT] at hfind
        rw [hfind]
        simp [htstat]

/-- The guard conditions under which one operation applies the seat
credit `bus.available_seats += seats_booked` for the ticket with primary
key `tid`: a successful `cancel_ticket` on that ticket whose bus row
exists (`bookings.py` lines 560–563), or a successful `cancel_booking`
whose associated confirmed ticket is that ticket (`bookings.py` lines
309–316, noting that without a bus row the handler crashes and rolls
back before committing). -/
def creditsTicket (tid : Nat) (op : Op) (db : DB) : Bool :=
  match op with
  | .cancelTicket u tid' _ _ =>
    tid' == tid &&
    (u.role == Role.passenger) &&
    (match db.tickets.find? (fun t => t.id == tid') with
     | none => false
     | some t =>
       match db.bookings.find? (fun b => b.id == t.booking_id) with
       | none => false
       | some bk =>
         (bk.passenger_id == u.id) && (t.status == TicketStatus.confirmed) &&
           (db.buses.find? (fun b => b.id == bk.bus_id)).isSome)
  | .cancelBooking u bid _ _ =>
    match db.bookings.find? (fun b => b.id == bid) with
    | none => false
    | some bk =>
      ((u.role == Role.passenger && bk.passenger_id == u.id) ||
       (u.role == Role.supervisor &&
         (match db.buses.find? (fun b => b.id == bk.bus_id) with
          | some bus => bus.supervisor_id == some u.id
          | none => false))) &&
      !(bk.status == BookingStatus.rejected) &&
      !(bk.status == BookingStatus.cancelled) &&
      (match db.tickets.find? (fun t => t.booking_id == bk.id) with
       | none => false
       | some t => (t.id == tid) && (t.status == TicketStatus.confirmed) &&
           (db.buses.find? (fun b => b.id == bk.bus_id)).isSome)
  | _ => false

/-- Number of operations in a sequence that credit the seats of ticket
`tid` back to its bus. -/
def countCredits (tid : Nat) : List Op → DB → Nat
  | [], _ => 0
  | op :: rest, db =>
    (if creditsTicket tid op db then 1 else 0) +
      countCredits tid rest (applyOp op db)

theorem creditsTicket_before {tid : Nat} {op : Op} {db : DB}
    (hwf : DB.WF db) (h : creditsTicket tid op db = true) :
    ticketStatusOf db tid = some TicketStatus.confirmed := by
  cases op with
  | acceptBooking u q now => simp [creditsTicket] at h
  | rejectBooking u q reason now => simp [creditsTicket] at h
  | confirmTicket u r => simp [creditsTicket] at h
  | cancelTicket u tid' reason now =>
    simp only [creditsTicket] at h
    cases htk : db.tickets.find? (fun t => t.id == tid') with
    | none => rw [htk] at h; simp at h
    | some t =>
      simp only [htk] at h
      cases hbk : db.bookings.find? (fun b => b.id == t.booking_id) with
      | none => rw [hbk] at h; simp at h
      | some bk =>
        simp only [hbk] at h
        have htid : tid' = tid := by
          by_contra hne
          simp [hne] at h
        have hconf : t.status = TicketStatus.confirmed := by
          by_contra hne
          simp [hne] at h
        unfold ticketStatusOf
        rw [← htid, htk]
        simp [hconf]
  | cancelBooking u bid reason now =>
    simp only [creditsTicket] at h
    cases hbk : db.bookings.find? (fun b => b.id == bid) with
    | none => rw [hbk] at h; simp at h
    | some bk =>
      simp only [hbk] at h
      cases htk : db.tickets.find? (fun t => t.booking_id == bk.id) with
      | none => rw [htk] at h; simp at h
      | some t =>
        simp only [htk] at h
        have htid : t.id = tid := by
          by_contra hne
          simp [hne] at h
        have hconf : t.status = TicketStatus.confirmed := by
          by_contra hne
          simp [hne] at h
        have hmem : t ∈ db.tickets := List.mem_of_find?_eq_some htk
        have hf : db.tickets.find? (fun x => x.id == t.id) = some t :=
          find?_eq_of_mem_nodup hmem hwf.2.2.1
        unfold ticketStatusOf
        rw [← htid, hf]
        simp [hconf]

theorem creditsTicket_after {tid : Nat} {op : Op} {db : DB}
    (hwf : DB.WF db) (h : creditsTicket tid op db = true) :
    ticketStatusOf (applyOp op db) tid = some TicketStatus.cancelled := by
  cases op with
  | acceptBooking u q now => simp [creditsTicket] at h
  | rejectBooking u q reason now => simp [creditsTicket] at h
  | confirmTicket u r => simp [creditsTicket] at h
  | cancelTicket u tid' reason now =>
    simp only [creditsTicket] at h
    cases htk : db.tickets.find? (fun t => t.id == tid') with
    | none => rw [htk] at h; simp at h
    | some t =>
      simp only [htk] at h
      cases hbk : db.bookings.find? (fun b => b.id == t.booking_id) with
      | none => rw [hbk] at h; simp at h
      | some bk =>
        simp only [hbk] at h
        have htid : tid' = tid := by
          by_contra hne
          simp [hne] at h
        have hrole : u.role = Role.passenger := by
          by_contra hne
          simp [hne] at h
        have howner : bk.passenger_id = u.id := by
          by_contra hne
          simp [hne] at h
        have hconf : t.status = TicketStatus.confirmed := by
          by_contra hne
          simp [hne] at h
        have hrun : runOp (Op.cancelTicket u tid' reason now) db =
            cancel_ticket db u tid' reason now := rfl
        have happ : applyOp (Op.cancelTicket u tid' reason now) db =
            { db with
              tickets := updateFirst (fun x => x.id == tid')
                (fun x => { x with status := TicketStatus.cancelled,
                                   cancelled_at := some now })
                db.tickets,
              buses :=
                match db.buses.find? (fun b => b.id == bk.bus_id) with
                | some _ =>
                  updateFirst (fun b => b.id == bk.bus_id)
                    (fun b => { b with available_seats :=
                                  b.available_seats + t.seats_booked })
                    db.buses
                | none => db.buses,
              bookings := updateFirst (fun b => b.id == t.booking_id)
                (fun b => { b with status := BookingStatus.cancelled,
                                   cancelled_time := some now,
                                   cancellation_reason := reason })
                db.bookings } := by
          unfold applyOp
          rw [hrun, cancel_ticket_run reason now hrole htk hbk howner hconf]
        rw [happ]
        unfold ticketStatusOf
        simp only
        rw [find?_after_update_key htk ?hid tid]
        case hid => exact fun x => rfl
        have htidt : t.id = tid' := by simpa using List.find?_some htk
        rw [if_pos (by rw [htidt, htid])]
        rfl
  | cancelBooking u bid reason now =>
    simp only [creditsTicket] at h
    cases hbk : db.bookings.find? (fun b => b.id == bid) with
    | none => rw [hbk] at h; simp at h
    | some bk =>
      simp only [hbk] at h
      cases htk : db.tickets.find? (fun t => t.booking_id == bk.id) with
      | none => rw [htk] at h; simp at h
      | some t =>
        simp only [htk] at h
        have htid : t.id = tid := by
          by_contra hne
          simp [hne] at h
        have hconf : t.status = TicketStatus.confirmed := by
          by_contra hne
          simp [hne] at h
        have hperm : ((u.role == Role.passenger &&
            bk.passenger_id == u.id) ||
          (u.role == Role.supervisor &&
            (match db.buses.find? (fun b => b.id == bk.bus_id) with
             | some bus => bus.supervisor_id == some u.id
             | none => false))) = true := by
          by_contra hne
          rw [Bool.not_eq_true] at hne
          simp [hne] at h
        have hstat1 : bk.status ≠ BookingStatus.rejected := by
          intro hc
          simp [hc] at h
        have hstat2 : bk.status ≠ BookingStatus.cancelled := by
          intro hc
          simp [hc] at h
        have hbusome : (db.buses.find? (fun b => b.id == bk.bus_id)).isSome =
            true := by
          by_contra hne
          rw [Bool.not_eq_true] at hne
          cases hfind : db.buses.find? (fun b => b.id == bk.bus_id) with
          | some v => rw [hfind] at hne; simp at hne
          | none => simp [hfind] at h
        obtain ⟨bus, hbus⟩ := Option.isSome_iff_exists.mp hbusome
        have happ : applyOp (Op.cancelBooking u bid reason now) db =
            { db with
              tickets := updateFirst (fun x => x.booking_id == bk.id)
                (fun x => { x with status := TicketStatus.cancelled,
                                   cancelled_at := some now })
                db.tickets,
              buses := updateFirst (fun b => b.id == bk.bus_id)
                (fun b => { b with available_seats :=
                              b.available_seats + t.seats_booked })
                db.buses,
              bookings := updateFirst (fun b => b.id == bid)
                (fun b => { b with status := BookingStatus.cancelled,
                                   cancelled_time := some now,
                                   cancellation_reason := reason })
                db.bookings } := by
          unfold applyOp
          have hrun : runOp (Op.cancelBooking u bid reason now) db =
              cancel_booking db u bid reason now := rfl
          rw [hrun, cancel_booking_run reason now hbk hperm hstat1 hstat2]
          simp only [htk, hbus]
          rw [if_pos (by simp [hconf])]
        rw [happ]
        unfold ticketStatusOf
        simp only
        obtain ⟨l1, l2, hT, hTl1, hTt⟩ := find?_decomp htk
        have hkeys := nodup_mid_key Ticket.id (hT ▸ hwf.2.2.1)
        rw [hT, updateFirst_mid _ l2 hTl1 hTt]
        rw [find?_mid_true l2 ?l1fail ?tpred]
        case l1fail =>
          intro x hx
          have := hkeys.1 x hx
          simp only [beq_eq_false_iff_ne]
          rw [htid] at this
          exact this
        case tpred => simp [htid]
        rfl

/-- Once a ticket is cancelled it never produces another credit. -/
theorem countCredits_zero (ops : List Op) {tid : Nat} {db : DB}
    (hwf : DB.WF db)
    (h : ticketStatusOf db tid = some TicketStatus.cancelled) :
    countCredits tid ops db = 0 := by
  induction ops generalizing db with
  | nil => rfl
  | cons op rest ih =>
    unfold countCredits
    have hnc : creditsTicket tid op db = false := by
      by_contra hne
      rw [Bool.not_eq_false] at hne
      have := creditsTicket_before hwf hne
      rw [h] at this
      cases this
    rw [hnc]
    simp only [Bool.false_eq_true, if_false, Nat.zero_add]
    exact ih (WF_applyOp op hwf) (ticket_cancelled_absorbing op hwf h)

/-- A given ticket's seats are credited back to its bus at most once
along any sequence of operations. -/
theorem countCredits_le_one (ops : List Op) (tid : Nat) {db : DB}
    (hwf : DB.WF db) : countCredits tid ops db ≤ 1 := by
  induction ops generalizing db with
  | nil => exact Nat.zero_le 1
  | cons op rest ih =>
    unfold countCredits
    by_cases hc : creditsTicket tid op db = true
    · rw [hc]
      have hafter := creditsTicket_after hwf hc
      rw [countCredits_zero rest (WF_applyOp op hwf) hafter]
      simp
    · rw [Bool.not_eq_true] at hc
      rw [hc]
      simp only [Bool.false_eq_true, if_false, Nat.zero_add]
      exact ih (WF_applyOp op hwf)

/-! ### Concrete stores used by witnesses and counterexamples -/

/-- Scenario A bus: capacity 40, 40 seats available, fare 850. -/
def busA : Bus :=
  { id := 1, fare := 850, seat_capacity := 40, available_seats := 40,
    owner_id := 10, supervisor_id := some 2, current_lat := none,
    current_lng := none, last_location_update := none, is_active := true }

def passengerP : User := { id := 5, role := Role.passenger }

def supervisorS : User := { id := 2, role := Role.supervisor }

/-- Scenario A booking: passenger P's pending request on bus 1. -/
def bookingA : Booking :=
  { id := 1, passenger_id := 5, bus_id := 1,
    status := BookingStatus.pending, accepted_time := none,
    rejected_time := none, cancelled_time := none,
    rejection_reason := none, cancellation_reason := none }

def bpA : BoardingPoint := { id := 1, bus_id := 1 }

def dbA : DB :=
  { buses := [busA], bookings := [bookingA], tickets := [],
    boarding_points := [bpA], next_ticket_id := 1 }

/-- Scenario A confirm request: boarding point 1, 2 seats. -/
def reqA : TicketConfirmRequest :=
  { booking_id := 1, boarding_point_id := 1, seats_booked := 2 }

/-- Scenario A after acceptance. -/
def dbA2 : DB :=
  { dbA with bookings := [({ bookingA with
      status := BookingStatus.accepted,
      accepted_time := some 100 } : Booking)] }

/-- Scenario A after ticket confirmation: 38 seats left, one confirmed
2-seat ticket. -/
def busB : Bus := { busA with available_seats := 38 }

def bookingB : Booking :=
  { bookingA with
    status := BookingStatus.accepted,
    accepted_time := some 100 }

def ticketB : Ticket :=
  { id := 1, booking_id := 1, boarding_point_id := 1, seats_booked := 2,
    fare_per_seat := 850, total_fare := 1700,
    status := TicketStatus.confirmed, cancelled_at := none }

def dbB : DB :=
  { buses := [busB], bookings := [bookingB], tickets := [ticketB],
    boarding_points := [bpA], next_ticket_id := 2 }

def passengerQ : User := { id := 6, role := Role.passenger }

/-- A full bus that nevertheless has an outstanding confirmed 2-seat
ticket: the states the claims' stated preconditions fail to exclude. -/
def busX : Bus :=
  { id := 7, fare := 500, seat_capacity := 40, available_seats := 40,
    owner_id := 11, supervisor_id := some 3, current_lat := none,
    current_lng := none, last_location_update := none, is_active := true }

def bookingX : Booking :=
  { id := 9, passenger_id := 6, bus_id := 7,
    status := BookingStatus.accepted, accepted_time := some 10,
    rejected_time := none, cancelled_time := none,
    rejection_reason := none, cancellation_reason := none }

def ticketX : Ticket :=
  { id := 4, booking_id := 9, boarding_point_id := 2, seats_booked := 2,
    fare_per_seat := 500, total_fare := 1000,
    status := TicketStatus.confirmed, cancelled_at := none }

def dbX : DB :=
  { buses := [busX], bookings := [bookingX], tickets := [ticketX],
    boarding_points := [], next_ticket_id := 5 }

/-! ### Auxiliary facts for the claim theorems -/

theorem sumSeats_nonneg {l : List Ticket}
    (h : ∀ t ∈ l, 0 ≤ t.seats_booked) : 0 ≤ sumSeats l := by
  induction l with
  | nil => exact le_refl 0
  | cons t ts ih =>
    have h1 := h t (by simp)
    have h2 := ih (fun x hx => h x (by simp [hx]))
    unfold sumSeats
    omega

theorem outstanding_nonneg {db : DB}
    (h2 : ∀ t ∈ db.tickets, t.status = TicketStatus.confirmed →
      0 ≤ t.seats_booked) (x : Nat) : 0 ≤ outstanding db x := by
  unfold outstanding
  refine sumSeats_nonneg ?_
  intro t ht
  have hmem := List.mem_of_mem_filter ht
  have hp := List.of_mem_filter ht
  refine h2 t hmem ?_
  unfold countsFor at hp
  simp only [Bool.and_eq_true, beq_iff_eq] at hp
  exact hp.1

theorem wf_seatInv_applyOps (ops : List Op) {db : DB} (hwf : DB.WF db)
    (hsi : SeatInv db) :
    DB.WF (applyOps ops db) ∧ SeatInv (applyOps ops db) := by
  induction ops generalizing db with
  | nil => exact ⟨hwf, hsi⟩
  | cons op rest ih =>
    exact ih (WF_applyOp op hwf) (seatInv_applyOp op hwf hsi)

/-! ### C1 -/

/-- C1 counterexample: the claim's stated precondition
`0 <= available_seats <= seat_capacity` is satisfied by `dbX`
(`available_seats = 40`, `seat_capacity = 40`), yet one `cancelTicket`
on its outstanding confirmed 2-seat ticket leaves
`available_seats = 42 > 40 = seat_capacity`, because the seat credit in
`cancel_ticket` (`bookings.py` line 563) is not clamped. -/
theorem seat_bounds_claim_counterexample :
    (0 ≤ busX.available_seats ∧
      busX.available_seats ≤ busX.seat_capacity) ∧
    busAvailOf (applyOps [Op.cancelTicket passengerQ 4 none 50] dbX) 7 =
      some 42 ∧
    busCapOf (applyOps [Op.cancelTicket passengerQ 4 none 50] dbX) 7 =
      some 40 ∧
    ¬ (42 : Int) ≤ 40 := by
  decide

/-- C1 (amended): for every bus, starting from a relationally
well-formed store whose seat ledger is consistent — `0 ≤
available_seats` and `available_seats` plus the seats of the bus's
outstanding confirmed tickets is at most `seat_capacity` — after every
sequence of operations the bus still satisfies
`0 ≤ available_seats ≤ seat_capacity`. -/
theorem seat_bounds_invariant {db : DB} (hwf : DB.WF db)
    (hsi : SeatInv db) (ops : List Op) :
    ∀ bus ∈ (applyOps ops db).buses,
      0 ≤ bus.available_seats ∧
      bus.available_seats ≤ bus.seat_capacity := by
  obtain ⟨hwf', hsi'⟩ := wf_seatInv_applyOps ops hwf hsi
  intro bus hb
  have h1 := hsi'.1 bus hb
  have hout := outstanding_nonneg hsi'.2 bus.id
  exact ⟨h1.1, by omega⟩

/-- C1 witness: the amended hypotheses hold of the Scenario A store, and
the bounds hold after an accept/confirm/cancel run. -/
theorem seat_bounds_invariant_witness :
    (DB.WF dbA ∧ SeatInv dbA) ∧
    ∀ bus ∈ (applyOps [Op.acceptBooking supervisorS 1 100,
        Op.confirmTicket passengerP reqA,
        Op.cancelTicket passengerP 1 none 300] dbA).buses,
      0 ≤ bus.available_seats ∧
      bus.available_seats ≤ bus.seat_capacity :=
  ⟨⟨by decide, by decide⟩,
    seat_bounds_invariant (by decide) (by decide) _⟩

/-! ### C3 -/

/-- C3 counterexample: crediting 2 seats back to a full 40/40 bus yields
42, not the clamped 40 the claim describes — the release is not clamped
to `seat_capacity`. -/
theorem seat_release_clamp_counterexample :
    busAvailOf (applyOp (Op.cancelTicket passengerQ 4 none 60) dbX) 7 =
      some 42 ∧
    busCapOf dbX 7 = some 40 ∧
    ((42 : Int) ≠ min (40 + 2) 40 ∧ ¬ (42 : Int) ≤ 40) := by
  decide

/-- C3 (amended): the seat credit performed when a confirmed ticket is
cancelled — directly by `cancel_ticket` or via `cancel_booking` —
increments `available_seats` by exactly `seats_booked`, with no
clamping, for every starting value of `available_seats` (so the result
can exceed `seat_capacity`). -/
theorem seat_release_unclamped :
    (∀ (db : DB) (u : User) (tid : Nat) (reason : Option String)
        (now : Nat) (t : Ticket) (bk : Booking) (bus : Bus),
      u.role = Role.passenger →
      db.tickets.find? (fun x => x.id == tid) = some t →
      db.bookings.find? (fun b => b.id == t.booking_id) = some bk →
      bk.passenger_id = u.id →
      t.status = TicketStatus.confirmed →
      db.buses.find? (fun b => b.id == bk.bus_id) = some bus →
      busAvailOf (applyOp (Op.cancelTicket u tid reason now) db)
          bk.bus_id = some (bus.available_seats + t.seats_booked)) ∧
    (∀ (db : DB) (u : User) (bid : Nat) (reason : Option String)
        (now : Nat) (bk : Booking) (t : Ticket) (bus : Bus),
      db.bookings.find? (fun b => b.id == bid) = some bk →
      ((u.role == Role.passenger && bk.passenger_id == u.id) ||
        (u.role == Role.supervisor &&
          (match db.buses.find? (fun b => b.id == bk.bus_id) with
           | some bus => bus.supervisor_id == some u.id
           | none => false))) = true →
      bk.status ≠ BookingStatus.rejected →
      bk.status ≠ BookingStatus.cancelled →
      db.tickets.find? (fun x => x.booking_id == bk.id) = some t →
      t.status = TicketStatus.confirmed →
      db.buses.find? (fun b => b.id == bk.bus_id) = some bus →
      busAvailOf (applyOp (Op.cancelBooking u bid reason now) db)
          bk.bus_id = some (bus.available_seats + t.seats_booked)) := by
  constructor
  · intro db u tid reason now t bk bus hrole htk hbk howner hconf hbus
    have happ : applyOp (Op.cancelTicket u tid reason now) db =
        { db with
          tickets := updateFirst (fun x => x.id == tid)
            (fun x => { x with status := TicketStatus.cancelled,
                               cancelled_at := some now })
            db.tickets,
          buses :=
            match db.buses.find? (fun b => b.id == bk.bus_id) with
            | some _ =>
              updateFirst (fun b => b.id == bk.bus_id)
                (fun b => { b with available_seats :=
                              b.available_seats + t.seats_booked })
                db.buses
            | none => db.buses,
          bookings := updateFirst (fun b => b.id == t.booking_id)
            (fun b => { b with status := BookingStatus.cancelled,
                               cancelled_time := some now,
                               cancellation_reason := reason })
            db.bookings } := by
      unfold applyOp
      have hrun : runOp (Op.cancelTicket u tid reason now) db =
          cancel_ticket db u tid reason now := rfl
      rw [hrun, cancel_ticket_run reason now hrole htk hbk howner hconf]
    rw [happ]
    unfold busAvailOf
    simp only [hbus]
    rw [find?_after_update_key hbus ?hid bk.bus_id]
    case hid => exact fun x => rfl
    have hbusid : bus.id = bk.bus_id := by simpa using List.find?_some hbus
    rw [if_pos hbusid.symm]
    rfl
  · intro db u bid reason now bk t bus hbk hperm hstat1 hstat2 htk hconf hbus
    have happ : applyOp (Op.cancelBooking u bid reason now) db =
        { db with
          tickets := updateFirst (fun x => x.booking_id == bk.id)
            (fun x => { x with status := TicketStatus.cancelled,
                               cancelled_at := some now })
            db.tickets,
          buses := updateFirst (fun b => b.id == bk.bus_id)
            (fun b => { b with available_seats :=
                          b.available_seats + t.seats_booked })
            db.buses,
          bookings := updateFirst (fun b => b.id == bid)
            (fun b => { b with status := BookingStatus.cancelled,
                               cancelled_time := some now,
                               cancellation_reason := reason })
            db.bookings } := by
      unfold applyOp
      have hrun : runOp (Op.cancelBooking u bid reason now) db =
          cancel_booking db u bid reason now := rfl
      rw [hrun, cancel_booking_run reason now hbk hperm hstat1 hstat2]
      simp only [htk, hbus]
      rw [if_pos (by simp [hconf])]
    rw [happ]
    unfold busAvailOf
    simp only
    rw [find?_after_update_key hbus ?hid bk.bus_id]
    case hid => exact fun x => rfl
    have hbusid : bus.id = bk.bus_id := by simpa using List.find?_some hbus
    rw [if_pos hbusid.symm]
    rfl

/-- C3 witness: both credit sites applied to the full bus of `dbX` give
exactly 40 + 2 = 42 available seats. -/
theorem seat_release_unclamped_witness :
    busAvailOf (applyOp (Op.cancelTicket passengerQ 4 none 60) dbX) 7 =
      some (40 + 2) ∧
    busAvailOf (applyOp (Op.cancelBooking passengerQ 9 none 60) dbX) 7 =
      some (40 + 2) :=
  ⟨seat_release_unclamped.1 dbX passengerQ 4 none 60 ticketX bookingX busX
      (by decide) (by decide) (by decide) (by decide) (by decide) (by decide),
    seat_release_unclamped.2 dbX passengerQ 9 none 60 bookingX ticketX busX
      (by decide) (by decide) (by decide) (by decide) (by decide) (by decide)
      (by decide)⟩

/-! ### C4 -/

/-- A computable sufficient check for `TicketsConsistent`, used to
discharge it on concrete stores. -/
theorem ticketsConsistent_of_check (db : DB)
    (h : db.tickets.all (fun t =>
      !(t.status == TicketStatus.confirmed) ||
      (match db.bookings.find? (fun x => x.id == t.booking_id) with
       | some b => b.status == BookingStatus.accepted
       | none => true)) = true) : TicketsConsistent db := by
  intro t ht hconf b hb
  have := List.all_eq_true.mp h t ht
  rw [hconf] at this
  simp only [hb] at this
  simpa using this

/-- C4 witness: the invariants hold of the Scenario A store after
confirmation, its booking is `accepted`, and after a cancel / accept /
reject run it can only have stayed `accepted` or moved to `cancelled`. -/
theorem booking_terminal_witness :
    Inv dbB ∧ bookingStatusOf dbB 1 = some BookingStatus.accepted ∧
    (bookingStatusOf (applyOps [Op.cancelTicket passengerP 1 none 300,
        Op.acceptBooking supervisorS 1 400,
        Op.rejectBooking supervisorS 1 none 500] dbB) 1 =
        some BookingStatus.accepted ∨
      (BookingStatus.accepted = BookingStatus.accepted ∧
        bookingStatusOf (applyOps [Op.cancelTicket passengerP 1 none 300,
          Op.acceptBooking supervisorS 1 400,
          Op.rejectBooking supervisorS 1 none 500] dbB) 1 =
          some BookingStatus.cancelled)) :=
  ⟨⟨by decide, by decide, ticketsConsistent_of_check dbB (by decide)⟩,
    by decide,
    bookingStatus_terminal _
      ⟨by decide, by decide, ticketsConsistent_of_check dbB (by decide)⟩
      (by decide) (by decide)⟩

/-! ### C5 -/

/-- C5: a successful `cancel_ticket` by the owning passenger on a
confirmed ticket cancels the ticket, cancels the parent booking, and
credits the bus's `available_seats` by `seats_booked`. -/
theorem cancel_ticket_spec {db : DB} {u : User} {tid : Nat}
    (reason : Option String) (now : Nat) {t : Ticket} {bk : Booking}
    {bus : Bus}
    (hrole : u.role = Role.passenger)
    (htk : db.tickets.find? (fun x => x.id == tid) = some t)
    (hbk : db.bookings.find? (fun b => b.id == t.booking_id) = some bk)
    (howner : bk.passenger_id = u.id)
    (hconf : t.status = TicketStatus.confirmed)
    (hbus : db.buses.find? (fun b => b.id == bk.bus_id) = some bus) :
    ∃ db2, cancel_ticket db u tid reason now = .ok (db2, []) ∧
      ticketStatusOf db2 tid = some TicketStatus.cancelled ∧
      bookingStatusOf db2 bk.id = some BookingStatus.cancelled ∧
      busAvailOf db2 bk.bus_id =
        some (bus.available_seats + t.seats_booked) := by
  have hrun := cancel_ticket_run reason now hrole htk hbk howner hconf
  simp only [hbus] at hrun
  refine ⟨_, hrun, ?_, ?_, ?_⟩
  · unfold ticketStatusOf
    simp only
    rw [find?_after_update_key htk ?hid tid]
    case hid => exact fun x => rfl
    have htid : t.id = tid := by simpa using List.find?_some htk
    rw [if_pos htid.symm]
    rfl
  · unfold bookingStatusOf
    simp only
    rw [find?_after_update_key hbk ?hid bk.id]
    case hid => exact fun x => rfl
    rw [if_pos rfl]
    rfl
  · unfold busAvailOf
    simp only
    rw [find?_after_update_key hbus ?hid bk.bus_id]
    case hid => exact fun x => rfl
    have hbusid : bus.id = bk.bus_id := by simpa using List.find?_some hbus
    rw [if_pos hbusid.symm]
    rfl

/-- C5 witness (Scenario B): accepting and confirming from Scenario A
yields `dbB`; cancelling the 2-seat ticket then leaves the ticket
`cancelled`, the booking `cancelled`, and 38 + 2 = 40 seats available. -/
theorem cancel_ticket_spec_witness :
    applyOps [Op.acceptBooking supervisorS 1 100,
      Op.confirmTicket passengerP reqA] dbA = dbB ∧
    ∃ db2, cancel_ticket dbB passengerP 1 none 300 = .ok (db2, []) ∧
      ticketStatusOf db2 1 = some TicketStatus.cancelled ∧
      bookingStatusOf db2 1 = some BookingStatus.cancelled ∧
      busAvailOf db2 1 = some (38 + 2) :=
  ⟨by decide,
    @cancel_ticket_spec dbB passengerP 1 none 300 ticketB bookingB busB
      (by decide) (by decide) (by decide) (by decide) (by decide)
      (by decide)⟩

/-! ### C7 -/

/-- C7: a successful `accept_booking` sets the booking's status to
`accepted` and stamps `accepted_time`, and changes nothing else: buses
(in particular every `available_seats`), tickets, boarding points, the
id sequence, and every other booking row are untouched. -/
theorem accept_booking_spec {db : DB} {u : User} {bid : Nat} (now : Nat)
    {bk : Booking} {bus : Bus}
    (hrole : u.role = Role.supervisor)
    (hbk : db.bookings.find? (fun b => b.id == bid) = some bk)
    (hbus : db.buses.find? (fun b => b.id == bk.bus_id) = some bus)
    (hsup : bus.supervisor_id = some u.id)
    (hpend : bk.status = BookingStatus.pending)
    (havail : 0 < bus.available_seats) :
    ∃ db2, accept_booking db u bid now = .ok (db2, []) ∧
      db2.buses = db.buses ∧
      db2.tickets = db.tickets ∧
      db2.boarding_points = db.boarding_points ∧
      db2.next_ticket_id = db.next_ticket_id ∧
      db2.bookings.find? (fun b => b.id == bid) =
        some { bk with status := BookingStatus.accepted,
                       accepted_time := some now } ∧
      (∀ x, x ≠ bk.id →
        db2.bookings.find? (fun b => b.id == x) =
          db.bookings.find? (fun b => b.id == x)) ∧
      (∀ x, busAvailOf db2 x = busAvailOf db x) := by
  refine ⟨_, accept_booking_run now hrole hbk hbus hsup hpend havail,
    rfl, rfl, rfl, rfl, ?_, ?_, fun x => rfl⟩
  · have hbkid : bk.id = bid := by simpa using List.find?_some hbk
    rw [find?_after_update_key hbk ?hid bid]
    case hid => exact fun x => rfl
    rw [if_pos hbkid.symm]
  · intro x hx
    rw [find?_after_update_key hbk ?hid x]
    case hid => exact fun y => rfl
    rw [if_neg hx]

/-- C7 witness: accepting the Scenario A pending booking stamps it and
leaves the 40 available seats untouched. -/
theorem accept_booking_spec_witness :
    ∃ db2, accept_booking dbA supervisorS 1 100 = .ok (db2, []) ∧
      db2.buses = dbA.buses ∧
      db2.tickets = dbA.tickets ∧
      db2.boarding_points = dbA.boarding_points ∧
      db2.next_ticket_id = dbA.next_ticket_id ∧
      db2.bookings.find? (fun b => b.id == 1) =
        some { bookingA with status := BookingStatus.accepted,
                             accepted_time := some 100 } ∧
      (∀ x, x ≠ bookingA.id →
        db2.bookings.find? (fun b => b.id == x) =
          dbA.bookings.find? (fun b => b.id == x)) ∧
      (∀ x, busAvailOf db2 x = busAvailOf dbA x) :=
  @accept_booking_spec dbA supervisorS 1 100 bookingA busA
    (by decide) (by decide) (by decide) (by decide) (by decide) (by decide)

/-! ### C6 -/

/-- The Scenario B store after the ticket and booking were cancelled and
the seats credited back. -/
def ticketC : Ticket :=
  { ticketB with status := TicketStatus.cancelled, cancelled_at := some 300 }

def bookingC : Booking :=
  { bookingB with
    status := BookingStatus.cancelled,
    cancelled_time := some 300 }

def dbC : DB :=
  { buses := [busA], bookings := [bookingC], tickets := [ticketC],
    boarding_points := [bpA], next_ticket_id := 2 }

/-- C6: cancelling a ticket that is not `confirmed` fails with the
`InvalidTransition`-style error `"Ticket is already <status>"` and
leaves the store unchanged; and along every operation sequence the seat
credit for a given ticket — by `cancel_ticket` directly or through
`cancel_booking` — is applied at most once. -/
theorem cancel_ticket_idempotent :
    (∀ (db : DB) (u : User) (tid : Nat) (reason : Option String)
        (now : Nat) (t : Ticket) (bk : Booking),
      u.role = Role.passenger →
      db.tickets.find? (fun x => x.id == tid) = some t →
      db.bookings.find? (fun b => b.id == t.booking_id) = some bk →
      bk.passenger_id = u.id →
      t.status ≠ TicketStatus.confirmed →
      cancel_ticket db u tid reason now =
        .error (.badRequest ("Ticket is already " ++ t.status.value)) ∧
      applyOp (Op.cancelTicket u tid reason now) db = db) ∧
    (∀ (tid : Nat) (ops : List Op) (db : DB), DB.WF db →
      countCredits tid ops db ≤ 1) := by
  constructor
  · intro db u tid reason now t bk hrole htk hbk howner hnc
    have herr : cancel_ticket db u tid reason now =
        .error (.badRequest ("Ticket is already " ++ t.status.value)) := by
      unfold cancel_ticket
      rw [if_neg (by simp [hrole])]
      rw [htk]
      simp only
      rw [hbk]
      simp only
      rw [if_neg (by simp [howner]), if_pos hnc]
    refine ⟨herr, ?_⟩
    unfold applyOp
    have hrun : runOp (Op.cancelTicket u tid reason now) db =
        cancel_ticket db u tid reason now := rfl
    rw [hrun, herr]
  · intro tid ops db hwf
    exact countCredits_le_one ops tid hwf

/-- C6 witness: a second `cancel_ticket` on the already-cancelled
Scenario B ticket errors and changes nothing, and a double-cancellation
sequence (ticket cancel, then booking cancel, then ticket cancel again)
credits the seats exactly once. -/
theorem cancel_ticket_idempotent_witness :
    (cancel_ticket dbC passengerP 1 none 400 =
      .error (.badRequest ("Ticket is already " ++
        TicketStatus.cancelled.value)) ∧
      applyOp (Op.cancelTicket passengerP 1 none 400) dbC = dbC) ∧
    countCredits 1 [Op.cancelTicket passengerP 1 none 300,
      Op.cancelBooking passengerP 1 none 310,
      Op.cancelTicket passengerP 1 none 320] dbB ≤ 1 ∧
    countCredits 1 [Op.cancelTicket passengerP 1 none 300,
      Op.cancelBooking passengerP 1 none 310,
      Op.cancelTicket passengerP 1 none 320] dbB = 1 ∧
    busAvailOf (applyOps [Op.cancelTicket passengerP 1 none 300,
      Op.cancelBooking passengerP 1 none 310,
      Op.cancelTicket passengerP 1 none 320] dbB) 1 = some 40 :=
  ⟨cancel_ticket_idempotent.1 dbC passengerP 1 none 400 ticketC bookingC
      (by decide) (by decide) (by decide) (by decide) (by decide),
    cancel_ticket_idempotent.2 1 _ dbB (by decide),
    by decide, by decide⟩

/-! ### C10 -/

def dbZ : DB :=
  { buses := [], bookings := [bookingB], tickets := [ticketB],
    boarding_points := [bpA], next_ticket_id := 2 }

/-- C10: `cancel_ticket` raises `NotFound` only for a missing ticket
row (a missing booking row yields 403, not 404), and when the ticket
and booking exist but the bus row is absent the cancellation still
succeeds with the seat restoration silently skipped: the ticket and
booking are cancelled and no bus's `available_seats` changes. -/
theorem cancel_ticket_missing_bus :
    (∀ (db : DB) (u : User) (tid : Nat) (reason : Option String)
        (now : Nat) (d : String),
      cancel_ticket db u tid reason now = .error (.notFound d) →
      db.tickets.find? (fun t => t.id == tid) = none ∧
        d = "Ticket not found") ∧
    (∀ (db : DB) (u : User) (tid : Nat) (reason : Option String)
        (now : Nat) (t : Ticket) (bk : Booking),
      u.role = Role.passenger →
      db.tickets.find? (fun x => x.id == tid) = some t →
      db.bookings.find? (fun b => b.id == t.booking_id) = some bk →
      bk.passenger_id = u.id →
      t.status = TicketStatus.confirmed →
      db.buses.find? (fun b => b.id == bk.bus_id) = none →
      ∃ db2, cancel_ticket db u tid reason now = .ok (db2, []) ∧
        db2.buses = db.buses ∧
        ticketStatusOf db2 tid = some TicketStatus.cancelled ∧
        bookingStatusOf db2 bk.id = some BookingStatus.cancelled ∧
        (∀ x, busAvailOf db2 x = busAvailOf db x)) := by
  constructor
  · intro db u tid reason now d h
    unfold cancel_ticket at h
    split at h
    · simp at h
    split at h
    · rename_i hnone
      refine ⟨hnone, ?_⟩
      simp only [Except.error.injEq, ApiError.notFound.injEq] at h
      exact h.symm
    split at h
    · simp at h
    split at h
    · simp at h
    split at h
    · simp at h
    · simp at h
  · intro db u tid reason now t bk hrole htk hbk howner hconf hbus
    have hrun := cancel_ticket_run reason now hrole htk hbk howner hconf
    simp only [hbus] at hrun
    refine ⟨_, hrun, rfl, ?_, ?_, fun x => rfl⟩
    · unfold ticketStatusOf
      simp only
      rw [find?_after_update_key htk ?hid tid]
      case hid => exact fun x => rfl
      have htid : t.id = tid := by simpa using List.find?_some htk
      rw [if_pos htid.symm]
      rfl
    · unfold bookingStatusOf
      simp only
      rw [find?_after_update_key hbk ?hid bk.id]
      case hid => exact fun x => rfl
      rw [if_pos rfl]
      rfl

/-- C10 witness: with the bus row deleted, cancelling the confirmed
Scenario B ticket still succeeds and credits nothing; and the only
`NotFound` comes from a missing ticket row. -/
theorem cancel_ticket_missing_bus_witness :
    (dbA.tickets.find? (fun t => t.id == 99) = none ∧
      "Ticket not found" = "Ticket not found") ∧
    ∃ db2, cancel_ticket dbZ passengerP 1 none 300 = .ok (db2, []) ∧
      db2.buses = dbZ.buses ∧
      ticketStatusOf db2 1 = some TicketStatus.cancelled ∧
      bookingStatusOf db2 1 = some BookingStatus.cancelled ∧
      (∀ x, busAvailOf db2 x = busAvailOf dbZ x) :=
  ⟨cancel_ticket_missing_bus.1 dbA passengerP 99 none 300
      "Ticket not found" rfl,
    cancel_ticket_missing_bus.2 dbZ passengerP 1 none 300 ticketB bookingB
      (by decide) (by decide) (by decide) (by decide) (by decide)
      (by decide)⟩

/-! ### C9 -/

theorem listRemove_eq_none {x : Nat} {l : List Nat} :
    listRemove x l = none ↔ x ∉ l := by
  induction l with
  | nil => simp [listRemove]
  | cons y ys ih =>
    by_cases hy : y = x
    · subst hy
      simp [listRemove]
    · simp only [listRemove]
      rw [show (y == x) = false by simpa using hy]
      rw [if_neg Bool.false_ne_true]
      constructor
      · intro h
        rcases ho : listRemove x ys with _ | l'
        · rw [List.mem_cons]
          rintro (rfl | hmem)
          · exact hy rfl
          · exact (ih.mp ho) hmem
        · rw [ho] at h
          simp at h
      · intro h
        rw [List.mem_cons, not_or] at h
        rw [ih.mpr h.2]
        rfl

/-- A routing table with a channel set registered under user id 1 and
bus id 8. -/
def cm9 : ConnectionManager :=
  { active_connections := [(1, [2])], bus_connections := [(8, [9])] }

/-- C9 counterexample: channel 3 was never registered under user id 1
(only channel 2 is), yet `disconnect_user` — Python `list.remove` —
raises `ValueError` instead of being a safe no-op; likewise for the
bus-location table. -/
theorem unsubscribe_idempotent_counterexample :
    disconnect_user cm9 3 1 = none ∧
    disconnect_bus_location cm9 3 8 = none := by
  decide

/-- C9 (amended): unsubscribing is a safe no-op only when *no channel
set at all* is registered under the key; if the key is registered, the
call removes the channel when present (dropping the key once its set is
empty) and raises `ValueError` when the channel is not in the key's
list — it is not idempotent. -/
theorem unsubscribe_spec :
    (∀ (ws : Nat) (l : List Nat), listRemove ws l = none ↔ ws ∉ l) ∧
    (∀ (m : ConnectionManager) (ws k : Nat),
      lookupKey m.active_connections k = none →
      disconnect_user m ws k = some m) ∧
    (∀ (m : ConnectionManager) (ws k : Nat) (conns : List Nat),
      lookupKey m.active_connections k = some conns →
      ws ∉ conns →
      disconnect_user m ws k = none) ∧
    (∀ (m : ConnectionManager) (ws k : Nat) (conns conns' : List Nat),
      lookupKey m.active_connections k = some conns →
      listRemove ws conns = some conns' →
      disconnect_user m ws k =
        some { m with active_connections :=
                 storeKey m.active_connections k conns' }) ∧
    (∀ (m : ConnectionManager) (ws k : Nat),
      lookupKey m.bus_connections k = none →
      disconnect_bus_location m ws k = some m) ∧
    (∀ (m : ConnectionManager) (ws k : Nat) (conns : List Nat),
      lookupKey m.bus_connections k = some conns →
      ws ∉ conns →
      disconnect_bus_location m ws k = none) ∧
    (∀ (m : ConnectionManager) (ws k : Nat) (conns conns' : List Nat),
      lookupKey m.bus_connections k = some conns →
      listRemove ws conns = some conns' →
      disconnect_bus_location m ws k =
        some { m with bus_connections :=
                 storeKey m.bus_connections k conns' }) := by
  refine ⟨fun ws l => listRemove_eq_none, ?_, ?_, ?_, ?_, ?_, ?_⟩
  · intro m ws k h
    unfold disconnect_user
    rw [h]
  · intro m ws k conns h hmem
    unfold disconnect_user
    rw [h]
    simp only
    rw [listRemove_eq_none.mpr hmem]
  · intro m ws k conns conns' h hrem
    unfold disconnect_user
    rw [h]
    simp only
    rw [hrem]
  · intro m ws k h
    unfold disconnect_bus_location
    rw [h]
  · intro m ws k conns h hmem
    unfold disconnect_bus_location
    rw [h]
    simp only
    rw [listRemove_eq_none.mpr hmem]
  · intro m ws k conns conns' h hrem
    unfold disconnect_bus_location
    rw [h]
    simp only
    rw [hrem]

/-- C9 witness: unsubscribing an unregistered key is a no-op,
unsubscribing an unknown channel under a registered key raises, and
removing the last channel drops the key. -/
theorem unsubscribe_spec_witness :
    disconnect_user cm9 5 42 = some cm9 ∧
    disconnect_user cm9 3 1 = none ∧
    disconnect_user cm9 2 1 =
      some { cm9 with active_connections :=
               storeKey cm9.active_connections 1 [] } ∧
    disconnect_bus_location cm9 9 8 =
      some { cm9 with bus_connections :=
               storeKey cm9.bus_connections 8 [] } :=
  ⟨unsubscribe_spec.2.1 cm9 5 42 (by decide),
    unsubscribe_spec.2.2.1 cm9 3 1 [2] (by decide) (by decide),
    unsubscribe_spec.2.2.2.1 cm9 2 1 [2] [] (by decide) (by decide),
    unsubscribe_spec.2.2.2.2.2.2 cm9 9 8 [9] [] (by decide) (by decide)⟩

/-! ### C8 -/

/-- A hub with passenger P (user id 5) subscribed on channel 77 and
bus 7 subscribed on channels 70 and 71. -/
def cm8 : ConnectionManager :=
  { active_connections := [(5, [77])], bus_connections := [(7, [70, 71])] }

def supervisorT : User := { id := 3, role := Role.supervisor }

def busL : Bus :=
  { id := 7, fare := 0, seat_capacity := 30, available_seats := 30,
    owner_id := 11, supervisor_id := some 3, current_lat := none,
    current_lng := none, last_location_update := none, is_active := true }

def dbL : DB :=
  { buses := [busL], bookings := [], tickets := [], boarding_points := [],
    next_ticket_id := 1 }

def dbL2 : DB :=
  { dbL with buses := [({ busL with
      current_lat := some 23,
      current_lng := some 90,
      last_location_update := some 55 } : Bus)] }

/-- C8 counterexample: passenger P's channel 77 is subscribed under
user id 5, the acceptance of P's booking succeeds, yet the handler
performs no deliveries at all (`accept_booking` in `bookings.py` never
calls `send_booking_accepted_notification`), so no `booking_accepted`
event reaches the subscribed channel. -/
theorem accept_publishes_counterexample :
    accept_booking dbA supervisorS 1 100 =
      .ok (dbA2, ([] : List Delivery)) ∧
    lookupKey cm8.active_connections 5 = some [77] ∧
    ¬ ∃ ws, ((ws, HubEvent.booking_accepted 1) ∈ ([] : List Delivery)) := by
  refine ⟨by decide, by decide, ?_⟩
  rintro ⟨ws, hmem⟩
  simp at hmem

/-- C8 (amended): successful `accept_booking`, `reject_booking` and
`confirm_ticket` publish no event to the Notification Hub at all; only
`update_bus_location` publishes, delivering one `location_update` to
every channel subscribed under the bus's id. -/
theorem notification_events_spec :
    (∀ (db : DB) (u : User) (bid now : Nat) (db2 : DB)
        (ds : List Delivery),
      accept_booking db u bid now = .ok (db2, ds) → ds = []) ∧
    (∀ (db : DB) (u : User) (bid : Nat) (reason : Option String)
        (now : Nat) (db2 : DB) (ds : List Delivery),
      reject_booking db u bid reason now = .ok (db2, ds) → ds = []) ∧
    (∀ (db : DB) (u : User) (r : TicketConfirmRequest) (db2 : DB)
        (ds : List Delivery),
      confirm_ticket_endpoint db u r = .ok (db2, ds) → ds = []) ∧
    (∀ (m : ConnectionManager) (db : DB) (u : User) (bus_id : Nat)
        (lat lng : Int) (now : Nat) (db2 : DB) (ds : List Delivery),
      update_bus_location m db u bus_id lat lng now = .ok (db2, ds) →
      ds = send_bus_location_update m bus_id) ∧
    (∀ (m : ConnectionManager) (bus_id : Nat) (conns : List Nat),
      lookupKey m.bus_connections bus_id = some conns →
      send_bus_location_update m bus_id =
        conns.map (fun ws => (ws, HubEvent.location_update bus_id))) := by
  refine ⟨?_, ?_, ?_, ?_, ?_⟩
  · intro db u bid now db2 ds h
    obtain ⟨_, _, _, _, _, _, _, _, hds, _⟩ := accept_booking_ok h
    exact hds
  · intro db u bid reason now db2 ds h
    obtain ⟨_, _, _, _, _, _, _, hds, _⟩ := reject_booking_ok h
    exact hds
  · intro db u r db2 ds h
    obtain ⟨_, _, _, _, _, _, _, _, _, _, hds, _⟩ :=
      confirm_ticket_endpoint_ok h
    exact hds
  · intro m db u bus_id lat lng now db2 ds h
    unfold update_bus_location at h
    cases hst : update_bus_location_state db u bus_id lat lng now with
    | error e => rw [hst] at h; cases h
    | ok db3 =>
      rw [hst] at h
      simp only [Except.ok.injEq, Prod.mk.injEq] at h
      exact h.2.symm
  · intro m bus_id conns h
    unfold send_bus_location_update
    rw [h]

/-- C8 witness: acceptance and confirmation of Scenario A deliver
nothing, while a location update for bus 7 is delivered as a
`location_update` to exactly the two channels subscribed under bus 7. -/
theorem notification_events_spec_witness :
    ([] : List Delivery) = [] ∧
    [(70, HubEvent.location_update 7), (71, HubEvent.location_update 7)] =
      send_bus_location_update cm8 7 ∧
    send_bus_location_update cm8 7 =
      [70, 71].map (fun ws => (ws, HubEvent.location_update 7)) :=
  ⟨notification_events_spec.1 dbA supervisorS 1 100 dbA2 [] (by decide),
    notification_events_spec.2.2.2.1 cm8 dbL supervisorT 7 23 90 55 dbL2
      [(70, HubEvent.location_update 7), (71, HubEvent.location_update 7)]
      (by decide),
    notification_events_spec.2.2.2.2 cm8 7 [70, 71] (by decide)⟩

/-! ### C2 -/

/-- C2: the full contract of `/booking/ticket/confirm`: out-of-range
seat counts are rejected by validation (422); a non-accepted booking
yields the `BookingNotAccepted` error; an existing ticket yields the
`DuplicateTicket` error; a boarding point that does not belong to the
booking's bus yields the `InvalidBoardingPoint` 404; more seats than
available yields the `InsufficientSeats` error; and on success exactly
one confirmed ticket is created with `fare_per_seat = bus.fare` and
`total_fare = bus.fare * seats_booked`, while the bus's
`available_seats` drops by exactly `seats_booked`. -/
theorem confirm_ticket_spec (db : DB) (u : User)
    (r : TicketConfirmRequest) :
    (r.seats_booked ≤ 0 ∨ 10 < r.seats_booked → r.valid = false) ∧
    (r.valid = false →
      confirm_ticket_endpoint db u r = .error .validationError) ∧
    (∀ bk : Booking, r.valid = true → u.role = Role.passenger →
      db.bookings.find? (fun b => b.id == r.booking_id) = some bk →
      bk.passenger_id = u.id →
      bk.status ≠ BookingStatus.accepted →
      confirm_ticket_endpoint db u r =
        .error (.badRequest "Booking must be accepted before confirming ticket")) ∧
    (∀ (bk : Booking) (t0 : Ticket), r.valid = true →
      u.role = Role.passenger →
      db.bookings.find? (fun b => b.id == r.booking_id) = some bk →
      bk.passenger_id = u.id →
      bk.status = BookingStatus.accepted →
      db.tickets.find? (fun t => t.booking_id == bk.id) = some t0 →
      confirm_ticket_endpoint db u r =
        .error (.badRequest "Ticket already confirmed for this booking")) ∧
    (∀ bk : Booking, r.valid = true → u.role = Role.passenger →
      db.bookings.find? (fun b => b.id == r.booking_id) = some bk →
      bk.passenger_id = u.id →
      bk.status = BookingStatus.accepted →
      db.tickets.find? (fun t => t.booking_id == bk.id) = none →
      db.boarding_points.find? (fun x =>
        x.id == r.boarding_point_id && x.bus_id == bk.bus_id) = none →
      confirm_ticket_endpoint db u r =
        .error (.notFound "Boarding point not found for this bus")) ∧
    (∀ (bk : Booking) (bp : BoardingPoint) (bus : Bus),
      r.valid = true → u.role = Role.passenger →
      db.bookings.find? (fun b => b.id == r.booking_id) = some bk →
      bk.passenger_id = u.id →
      bk.status = BookingStatus.accepted →
      db.tickets.find? (fun t => t.booking_id == bk.id) = none →
      db.boarding_points.find? (fun x =>
        x.id == r.boarding_point_id && x.bus_id == bk.bus_id) = some bp →
      db.buses.find? (fun b => b.id == bk.bus_id) = some bus →
      bus.available_seats < r.seats_booked →
      confirm_ticket_endpoint db u r =
        .error (.badRequest ("Only " ++ toString bus.available_seats ++
          " seats available"))) ∧
    (∀ (bk : Booking) (bp : BoardingPoint) (bus : Bus),
      r.valid = true → u.role = Role.passenger →
      db.bookings.find? (fun b => b.id == r.booking_id) = some bk →
      bk.passenger_id = u.id →
      bk.status = BookingStatus.accepted →
      db.tickets.find? (fun t => t.booking_id == bk.id) = none →
      db.boarding_points.find? (fun x =>
        x.id == r.boarding_point_id && x.bus_id == bk.bus_id) = some bp →
      db.buses.find? (fun b => b.id == bk.bus_id) = some bus →
      r.seats_booked ≤ bus.available_seats →
      ∃ db2, confirm_ticket_endpoint db u r = .ok (db2, []) ∧
        db2.tickets = db.tickets ++
          [{ id := db.next_ticket_id,
             booking_id := bk.id,
             boarding_point_id := r.boarding_point_id,
             seats_booked := r.seats_booked,
             fare_per_seat := bus.fare,
             total_fare := bus.fare * r.seats_booked,
             status := TicketStatus.confirmed,
             cancelled_at := none }] ∧
        busAvailOf db2 bk.bus_id =
          some (bus.available_seats - r.seats_booked) ∧
        db2.bookings = db.bookings) := by
  refine ⟨?_, ?_, ?_, ?_, ?_, ?_, ?_⟩
  · intro h
    unfold TicketConfirmRequest.valid
    rcases h with h | h
    · have hns : ¬ (0 < r.seats_booked) := by omega
      simp [hns]
    · have hns : ¬ (r.seats_booked ≤ 10) := by omega
      simp [hns]
  · intro h
    unfold confirm_ticket_endpoint
    rw [if_neg (by simp [h])]
  · intro bk hv hrole hbk howner hne
    unfold confirm_ticket_endpoint
    rw [if_pos hv]
    unfold confirm_ticket
    rw [if_neg (by simp [hrole])]
    rw [hbk]
    simp only
    rw [if_neg (by simp [howner]), if_pos hne]
  · intro bk t0 hv hrole hbk howner hacc htk
    unfold confirm_ticket_endpoint
    rw [if_pos hv]
    unfold confirm_ticket
    rw [if_neg (by simp [hrole])]
    rw [hbk]
    simp only
    rw [if_neg (by simp [howner]), if_neg (by simp [hacc])]
    rw [htk]
  · intro bk hv hrole hbk howner hacc htk hbp
    unfold confirm_ticket_endpoint
    rw [if_pos hv]
    unfold confirm_ticket
    rw [if_neg (by simp [hrole])]
    rw [hbk]
    simp only
    rw [if_neg (by simp [howner]), if_neg (by simp [hacc])]
    rw [htk]
    simp only
    rw [hbp]
  · intro bk bp bus hv hrole hbk howner hacc htk hbp hbus hlt
    unfold confirm_ticket_endpoint
    rw [if_pos hv]
    unfold confirm_ticket
    rw [if_neg (by simp [hrole])]
    rw [hbk]
    simp only
    rw [if_neg (by simp [howner]), if_neg (by simp [hacc])]
    rw [htk]
    simp only
    rw [hbp]
    simp only
    rw [hbus]
    simp only
    rw [if_pos hlt]
  · intro bk bp bus hv hrole hbk howner hacc htk hbp hbus hle
    refine ⟨_, confirm_ticket_run hv hrole hbk howner hacc htk hbp hbus hle,
      rfl, ?_, rfl⟩
    unfold busAvailOf
    simp only
    rw [find?_after_update_key hbus ?hid bk.bus_id]
    case hid => exact fun x => rfl
    have hbusid : bus.id = bk.bus_id := by simpa using List.find?_some hbus
    rw [if_pos hbusid.symm]
    rfl

/-- Request with a seat count above the maximum of 10. -/
def reqBad : TicketConfirmRequest :=
  { booking_id := 1, boarding_point_id := 1, seats_booked := 11 }

/-- Request naming a boarding point that is not on bus 1. -/
def reqBP : TicketConfirmRequest :=
  { booking_id := 1, boarding_point_id := 99, seats_booked := 2 }

/-- An accepted booking on a bus with a single seat left. -/
def busLow : Bus := { busA with available_seats := 1 }

def dbLow : DB :=
  { buses := [busLow], bookings := [bookingB], tickets := [],
    boarding_points := [bpA], next_ticket_id := 1 }

/-- C2 witness: every branch of the contract exercised on concrete
stores, ending with Scenario A's confirmation: 40 available seats and 2
requested seats leave 38. -/
theorem confirm_ticket_spec_witness :
    reqBad.valid = false ∧
    confirm_ticket_endpoint dbA2 passengerP reqBad =
      .error .validationError ∧
    confirm_ticket_endpoint dbA passengerP reqA =
      .error (.badRequest "Booking must be accepted before confirming ticket") ∧
    confirm_ticket_endpoint dbB passengerP reqA =
      .error (.badRequest "Ticket already confirmed for this booking") ∧
    confirm_ticket_endpoint dbA2 passengerP reqBP =
      .error (.notFound "Boarding point not found for this bus") ∧
    confirm_ticket_endpoint dbLow passengerP reqA =
      .error (.badRequest ("Only " ++ toString busLow.available_seats ++
        " seats available")) ∧
    ∃ db2, confirm_ticket_endpoint dbA2 passengerP reqA = .ok (db2, []) ∧
      db2.tickets = dbA2.tickets ++ [ticketB] ∧
      busAvailOf db2 1 = some (40 - 2) ∧
      db2.bookings = dbA2.bookings :=
  ⟨(confirm_ticket_spec dbA2 passengerP reqBad).1 (by decide),
    (confirm_ticket_spec dbA2 passengerP reqBad).2.1 (by decide),
    (confirm_ticket_spec dbA passengerP reqA).2.2.1 bookingA (by decide)
      (by decide) (by decide) (by decide) (by decide),
    (confirm_ticket_spec dbB passengerP reqA).2.2.2.1 bookingB ticketB
      (by decide) (by decide) (by decide) (by decide) (by decide)
      (by decide),
    (confirm_ticket_spec dbA2 passengerP reqBP).2.2.2.2.1 bookingB
      (by decide) (by decide) (by decide) (by decide) (by decide)
      (by decide) (by decide),
    (confirm_ticket_spec dbLow passengerP reqA).2.2.2.2.2.1 bookingB bpA
      busLow (by decide) (by decide) (by decide) (by decide) (by decide)
      (by decide) (by decide) (by decide) (by decide),
    (confirm_ticket_spec dbA2 passengerP reqA).2.2.2.2.2.2 bookingB bpA
      busA (by decide) (by decide) (by decide) (by decide) (by decide)
      (by decide) (by decide) (by decide) (by decide)⟩

end BusHub
